import Mathlib

/-!
Shallow embedding of the fitspace backend (Python, AWS Lambda + psycopg2)
for verification of its natural-language specification.

Source files embedded:
- `src/app.py`                   (entry adapter `lambda_handler`)
- `src/src/routes/api_routes.py` (dispatcher and route handlers)
- `src/src/models/user.py`       (`User` model)
- `src/src/models/avatar.py`     (`Avatar` model)
- `src/src/utils/response.py`    (envelope builders)
- `src/src/utils/database.py`    (`execute_query` transaction discipline)

Modelling conventions:
- Python `int` is `Int`; JSON / SQL numerics are `ℚ` (exact rationals stand in
  for Python floats; every numeric bound in the source is exactly
  representable, so the range comparisons agree).
- JSON bodies arrive already parsed: an event body is
  `Option (List (String × PyVal))`, with `none` marking a JSON decode failure
  (the `json.JSONDecodeError` path). Keys are assumed distinct, as in a dict.
- String manipulation is re-implemented over `List Char` (`stripStr`,
  `splitChar`, `replaceAll`, ...) so that closed computations reduce in the
  kernel; the semantics mirror the CPython methods used by the source
  (ASCII-level; exotic Unicode whitespace/casing is out of modeled scope).
- Exceptions are modelled with `Except`; the `try/except` ladders of the
  route handlers become explicit matches producing the same envelopes.
- The database is a pure state (`DbState`); executed statements are traced
  (`Stmt`) so that "no statement issued" claims are expressible. Driver-level
  failures and the commit/rollback discipline are modelled separately
  (`DriverOutcome`, `TxAction`) mirroring `execute_query` and the model layer.
- CPython exception message texts (`str(exc)` for TypeError and friends) are
  abstracted to stable strings; no theorem depends on their exact wording.
-/

namespace Fitspace

/-! ### Character-level string helpers (CPython `str` methods) -/

/-- Leading-whitespace removal on a character list. -/
def dropWs (cs : List Char) : List Char := cs.dropWhile Char.isWhitespace

/-- Python `s.strip()`: remove whitespace from both ends. -/
def stripStr (s : String) : String := ⟨((dropWs s.data).reverse.dropWhile Char.isWhitespace).reverse⟩

/-- Python `s.lower()` (ASCII case folding, as used on emails and genders). -/
def lowerStr (s : String) : String := ⟨s.data.map Char.toLower⟩

/-- Does the character list start with the given pattern? -/
def startsChars : List Char → List Char → Bool
  | [], _ => true
  | p :: ps, s =>
    match s with
    | [] => false
    | c :: cs => p = c && startsChars ps cs

/-- Substring containment on character lists (empty needle always matches). -/
def containsChars (needle : List Char) : List Char → Bool
  | [] => needle.isEmpty
  | c :: rest => startsChars needle (c :: rest) || containsChars needle rest

/-- Python `needle in hay` for strings. -/
def containsStr (hay needle : String) : Bool := containsChars needle.data hay.data

/-- Python `s.split(sep)` for a one-character separator (keeps empty pieces,
exactly like `str.split` with an explicit separator). -/
def splitChar (sep : Char) : List Char → List String
  | [] => [""]
  | c :: rest =>
    if c = sep then "" :: splitChar sep rest
    else match splitChar sep rest with
      | [] => [⟨[c]⟩]
      | piece :: pieces => ⟨c :: piece.data⟩ :: pieces

/-- Python `s.split(sep)` on a string. -/
def splitStr (s : String) (sep : Char) : List String := splitChar sep s.data

/-- Fuel-driven worker for `str.replace` (left-to-right, non-overlapping). -/
def replaceAllAux (pat repl : List Char) : Nat → List Char → List Char
  | 0, s => s
  | _ + 1, [] => []
  | fuel + 1, c :: rest =>
    if pat ≠ [] && startsChars pat (c :: rest) then
      repl ++ replaceAllAux pat repl fuel (List.drop (pat.length - 1) rest)
    else
      c :: replaceAllAux pat repl fuel rest

/-- Python `s.replace(pat, repl)`: replace every occurrence. -/
def replaceAll (s pat repl : String) : String :=
  ⟨replaceAllAux pat.data repl.data s.data.length s.data⟩

/-- Python `s.startswith(p)`. -/
def startsWithStr (s p : String) : Bool := startsChars p.data s.data

/-! ### Python numeric coercions -/

/-- Python runtime value as found in a parsed JSON payload. -/
inductive PyVal
  | vStr (s : String)
  | vInt (n : Int)
  | vNum (q : ℚ)
  | vNull
  deriving DecidableEq

/-- Python truthiness (`if value:`): None, empty string, and zero are falsy. -/
def pyTruthy : PyVal → Bool
  | .vStr s => s ≠ ""
  | .vInt n => n ≠ 0
  | .vNum q => q ≠ 0
  | .vNull => false

/-- Python `str(value)` rendering. For floats the exact CPython repr is
abstracted to a rational rendering; in every embedded code path only the
emptiness (and, in unclaimed corners, the length) of this string matters. -/
def pyStr : PyVal → String
  | .vStr s => s
  | .vInt n => toString n
  | .vNum q => if q.den = 1 then toString q.num else toString q.num ++ "/" ++ toString q.den
  | .vNull => "None"

/-- Digits of a decimal string to a natural number; `none` if empty or non-digit. -/
def digitsToNat (cs : List Char) : Option Nat :=
  if cs ≠ [] && cs.all (·.isDigit) then
    some (cs.foldl (fun a c => a * 10 + (c.toNat - 48)) 0)
  else none

/-- Python `int(s)` on a string: optional sign around a digit run, surrounding
whitespace stripped. (Underscore separators of CPython are out of modeled scope.) -/
def parsePyIntStr (s : String) : Option Int :=
  match (stripStr s).data with
  | '+' :: rest => (digitsToNat rest).map Int.ofNat
  | '-' :: rest => (digitsToNat rest).map (fun n => -(n : Int))
  | cs => (digitsToNat cs).map Int.ofNat

/-- Unsigned decimal `digits[.digits]` to an exact rational. -/
def decCore (cs : List Char) : Option ℚ :=
  match splitChar '.' cs with
  | [a] => (digitsToNat a.data).map (fun n => (n : ℚ))
  | [a, b] =>
    if (a.data ++ b.data).all (·.isDigit) && a.data.length + b.data.length > 0 then
      some (mkRat ((a.data ++ b.data).foldl (fun x c => x * 10 + (c.toNat - 48)) 0 : ℕ)
        (10 ^ b.data.length))
    else none
  | _ => none

/-- Python `float(s)` on a string, restricted to plain decimal notation
`[+-]digits[.digits]` (exponent forms, inf/nan and underscores are out of
modeled scope; no claim exercises them). -/
def parseDecimalStr (s : String) : Option ℚ :=
  match (stripStr s).data with
  | '+' :: rest => decCore rest
  | '-' :: rest => (decCore rest).map (fun q => -q)
  | cs => decCore cs

/-- Truncation toward zero, as Python `int(float)` (e.g. `int(-0.5) = 0`). -/
def ratTrunc (q : ℚ) : Int := Int.tdiv q.num q.den

/-- Python `int(value)` coercion as used on the avatar `age` field. -/
def pyInt : PyVal → Option Int
  | .vInt n => some n
  | .vNum q => some (ratTrunc q)
  | .vStr s => parsePyIntStr s
  | .vNull => none

/-- Python `float(value)` coercion as used on the numeric avatar fields.
(`None` never reaches this coercion in the embedded code.) -/
def pyFloat : PyVal → Option ℚ
  | .vInt n => some (n : ℚ)
  | .vNum q => some q
  | .vStr s => parseDecimalStr s
  | .vNull => none

/-- Dict lookup `payload.get(key)` on a parsed JSON object. -/
def jsonGet (payload : List (String × PyVal)) (key : String) : Option PyVal :=
  (payload.find? (fun kv => kv.1 = key)).map (·.2)

/-- Case-insensitive substring test, modelling the SQL `ILIKE` filter
with percent wildcards around a plain (wildcard-free) needle. -/
def containsCI (hay needle : String) : Bool := containsStr (lowerStr hay) (lowerStr needle)

/-! ### Data model (`users` and `avatars` rows) -/

/-- Row of the `users` table (timestamps as abstract ticks). -/
structure UserRow where
  id : Int
  name : String
  email : String
  phone : Option String
  bio : Option String
  created_at : Nat
  updated_at : Nat
  deriving DecidableEq

/-- Row of the `avatars` table. -/
structure AvatarRow where
  id : Int
  user_id : Int
  display_name : Option String
  age : Option Int
  gender : Option String
  height_cm : Option ℚ
  weight_kg : Option ℚ
  body_fat_percent : Option ℚ
  shoulder_circumference_cm : Option ℚ
  waist_cm : Option ℚ
  hips_cm : Option ℚ
  notes : Option String
  created_at : Nat
  updated_at : Nat
  deriving DecidableEq

/-- Database state: the two tables. Row lists are kept newest-first, modelling
the `ORDER BY created_at DESC` result order of the listing queries. -/
structure DbState where
  users : List UserRow
  avatars : List AvatarRow
  deriving DecidableEq

/-- Kinds of SQL statements the embedded code can issue (the trace element for
"no statement executed" claims). -/
inductive Stmt
  | selectUsers
  | countUsers
  | selectUserById
  | selectUserByEmail
  | insertUser
  | updateUser
  | deleteUser
  | selectAvatarsByUser
  | selectAvatarById
  | insertAvatar
  | updateAvatar
  | deleteAvatar
  | probe
  deriving DecidableEq

/-! ### Response envelopes (`src/utils/response.py`) -/

/-- Payload shapes carried by a success envelope (`data` values that occur in
the embedded routes; stands in for the JSON-serialised dict/list). -/
inductive RData
  | dUser (u : UserRow)
  | dUserWithAvatars (u : UserRow) (avatars : List AvatarRow)
  | dUsers (l : List UserRow)
  | dAvatar (a : AvatarRow)
  | dAvatars (l : List AvatarRow)
  | dId (n : Int)
  | dHealthBasic
  | dHealthDb
  deriving DecidableEq

/-- The `pagination` object of `create_paginated_response`
(`src/utils/response.py` lines 65-85). -/
structure Pagination where
  page : Int
  limit : Int
  total_count : Int
  total_pages : Int
  has_next : Bool
  has_previous : Bool
  deriving DecidableEq

/-- Body of a response: the uniform envelope shapes produced by
`src/utils/response.py` (plus the bare `message` dict used for CORS). -/
inductive RespBody
  | plain (message : String)
  | err (error : String) (statusCode : Int) (details : Option String)
  | success (data : RData) (message : Option String)
  | paginated (data : RData) (pagination : Pagination) (message : Option String)
  deriving DecidableEq

/-- The fixed CORS headers attached to every response
(`create_response`, `src/utils/response.py` lines 14-19). -/
def defaultHeaders : List (String × String) :=
  [("Content-Type", "application/json"),
   ("Access-Control-Allow-Origin", "*"),
   ("Access-Control-Allow-Headers", "Content-Type,Authorization,X-Amz-Date,X-Api-Key,X-Amz-Security-Token"),
   ("Access-Control-Allow-Methods", "GET,POST,PUT,DELETE,OPTIONS,PATCH")]

/-- An API Gateway response as assembled by `create_response`. -/
structure Response where
  statusCode : Int
  headers : List (String × String)
  body : RespBody
  deriving DecidableEq

/-- `create_response` (`src/utils/response.py` lines 10-31). -/
def create_response (statusCode : Int) (body : RespBody) : Response :=
  ⟨statusCode, defaultHeaders, body⟩

/-- `create_error_response` (`src/utils/response.py` lines 34-47). -/
def create_error_response (statusCode : Int) (errorMessage : String)
    (details : Option String) : Response :=
  create_response statusCode (.err errorMessage statusCode details)

/-- `create_success_response` (`src/utils/response.py` lines 50-62). -/
def create_success_response (data : RData) (message : Option String) : Response :=
  create_response 200 (.success data message)

/-- `create_paginated_response` (`src/utils/response.py` lines 65-85).
Python `//` is floor division, hence `Int.fdiv`. -/
def create_paginated_response (data : RData) (page limit total_count : Int)
    (message : Option String) : Response :=
  create_response 200 (.paginated data
    { page := page
      limit := limit
      total_count := total_count
      total_pages := Int.fdiv (total_count + limit - 1) limit
      has_next := decide (page * limit < total_count)
      has_previous := decide (page > 1) }
    message)

/-- Error message of a response, for readable theorem statements. -/
def Response.errMsg : Response → Option String
  | ⟨_, _, .err e _ _⟩ => some e
  | _ => none

/-! ### Python exceptions -/

/-- The exceptions that can cross a handler boundary in the embedded code.
Message strings stand in for `str(exc)`; for `TypeError`/`AttributeError`
the CPython wording is abstracted (no theorem depends on it). -/
inductive PyExc
  | valueError (msg : String)
  | typeError (msg : String)
  | attributeError (msg : String)
  | indexError (msg : String)
  | dbError (msg : String)
  deriving DecidableEq

/-- `str(exc)` as used by the handlers when filling the `details` field. -/
def PyExc.text : PyExc → String
  | .valueError m => m
  | .typeError m => m
  | .attributeError m => m
  | .indexError m => m
  | .dbError m => m

/-- Is the exception a `ValueError`? (`except ValueError` clauses). -/
def PyExc.isValueError : PyExc → Bool
  | .valueError _ => true
  | _ => false

/-! ### The `Avatar` model method table (`src/models/avatar.py`)

The route handlers in `api_routes.py` invoke the avatar model dynamically
(`avatar_model.<name>(args...)`). The class defined in `src/models/avatar.py`
exposes exactly these methods, with these positional-argument ranges
(excluding `self`; `create` and `update_partial` additionally take only
keyword arguments):

- `list_by_user(user_id, limit=None, offset=0)` — 1 to 3 positional args
- `get(avatar_id)`                              — exactly 1
- `create(**kwargs)`                            — exactly 0
- `update_partial(avatar_id, **fields)`         — exactly 1
- `delete(avatar_id)`                           — exactly 1
-/

/-- Positional-argument range (min, max) of each method the `Avatar` class
actually defines; `none` for an undefined attribute. -/
def avatarMethodPosArity : String → Option (Nat × Nat)
  | "list_by_user" => some (1, 3)
  | "get" => some (1, 1)
  | "create" => some (0, 0)
  | "update_partial" => some (1, 1)
  | "delete" => some (1, 1)
  | _ => none

/-- Python dynamic method call on an `Avatar` instance: an unknown attribute
raises `AttributeError`, a positional-arity mismatch raises `TypeError`. -/
def callAvatarMethod (name : String) (nArgs : Nat) : Except PyExc Unit :=
  match avatarMethodPosArity name with
  | none => .error (.attributeError ("Avatar object has no attribute " ++ name))
  | some (lo, hi) =>
    if lo ≤ nArgs && nArgs ≤ hi then .ok ()
    else .error (.typeError ("Avatar." ++ name ++ " called with " ++ toString nArgs ++
      " positional arguments"))

/-- Does the call raise `AttributeError` or `TypeError`? -/
def raisesAttrOrType : Except PyExc Unit → Bool
  | .error (.attributeError _) => true
  | .error (.typeError _) => true
  | _ => false

/-! ### Model layer, state semantics (driver succeeds)

These functions give the database-state semantics of the model methods that
the reachable code paths actually execute, together with the statements they
issue. Driver-level failures and the commit/rollback discipline are modelled
separately below (`...Tx` functions).
-/

/-- `User.get_by_id` query semantics: `SELECT ... FROM users WHERE id = %s`. -/
def dbUserById (db : DbState) (userId : Int) : Option UserRow :=
  db.users.find? (fun u => u.id = userId)

/-- `User.get_by_email` query semantics:
`SELECT ... FROM users WHERE email = %s`. -/
def dbUserByEmail (db : DbState) (email : String) : Option UserRow :=
  db.users.find? (fun u => u.email = email)

/-- `Avatar.get` query semantics: `SELECT * FROM avatars WHERE id = %s` —
note: keyed by the avatar id alone, with no ownership check. -/
def dbAvatarById (db : DbState) (avatarId : Int) : Option AvatarRow :=
  db.avatars.find? (fun a => a.id = avatarId)

/-- `Avatar.list_by_user` query semantics (no limit):
`SELECT * FROM avatars WHERE user_id = %s ORDER BY created_at DESC, id DESC`. -/
def dbAvatarsForUser (db : DbState) (userId : Int) : List AvatarRow :=
  db.avatars.filter (fun a => a.user_id = userId)

/-- Serial id generation for an insert into `users`. -/
def nextUserId (db : DbState) : Int :=
  1 + (db.users.map (·.id)).foldl max 0

/-- Serial id generation for an insert into `avatars`. -/
def nextAvatarId (db : DbState) : Int :=
  1 + (db.avatars.map (·.id)).foldl max 0

/-- `User.create` (`src/models/user.py` lines 87-120): check the email via
`get_by_email`, raise `ValueError` if taken — before any INSERT — otherwise
insert with server-set timestamps and return the new row. -/
def userCreateS (db : DbState) (now : Nat) (name email : String)
    (phone bio : Option String) : Except PyExc UserRow × DbState × List Stmt :=
  match dbUserByEmail db email with
  | some _ =>
    (.error (.valueError ("User with email " ++ email ++ " already exists")), db,
      [.selectUserByEmail])
  | none =>
    let row : UserRow :=
      { id := nextUserId db, name := name, email := email, phone := phone, bio := bio,
        created_at := now, updated_at := now }
    (.ok row, { db with users := row :: db.users }, [.selectUserByEmail, .insertUser])

/-- A single validated field of a user update (the dynamic `SET` clause is
built from exactly the supplied field names). -/
inductive UserField
  | fName (s : String)
  | fEmail (s : String)
  | fPhone (v : Option String)
  | fBio (v : Option String)
  deriving DecidableEq

/-- Apply one update field to a row. -/
def applyUserField (u : UserRow) : UserField → UserRow
  | .fName s => { u with name := s }
  | .fEmail s => { u with email := s }
  | .fPhone v => { u with phone := v }
  | .fBio v => { u with bio := v }

/-- `User.update` (`src/models/user.py` lines 122-165): fetch the row first,
return `None` when absent; raise `ValueError` when no valid field is supplied;
otherwise apply the supplied fields and refresh `updated_at`. -/
def userUpdateS (db : DbState) (now : Nat) (userId : Int) (updates : List UserField) :
    Except PyExc (Option UserRow) × DbState × List Stmt :=
  match dbUserById db userId with
  | none => (.ok none, db, [.selectUserById])
  | some u =>
    if updates.isEmpty then
      (.error (.valueError "No valid fields to update"), db, [.selectUserById])
    else
      let u2 := { updates.foldl applyUserField u with updated_at := now }
      (.ok (some u2),
        { db with users := db.users.map (fun w => if w.id = userId then u2 else w) },
        [.selectUserById, .updateUser])

/-- `User.delete` (`src/models/user.py` lines 167-191): fetch the row first,
return `False` when absent; otherwise delete and report
`affected-row count > 0`. The avatars of the user disappear with it
(`ON DELETE CASCADE`, `migrations/versions/20230918_avatars_table.py`). -/
def userDeleteS (db : DbState) (userId : Int) :
    Except PyExc Bool × DbState × List Stmt :=
  match dbUserById db userId with
  | none => (.ok false, db, [.selectUserById])
  | some _ =>
    let remaining := db.users.filter (fun u => u.id ≠ userId)
    (.ok (db.users.length - remaining.length > 0),
      { users := remaining,
        avatars := db.avatars.filter (fun a => a.user_id ≠ userId) },
      [.selectUserById, .deleteUser])

/-- Decidable equality for `Except`, so closed route results can be checked
with `decide`. -/
instance {ε α : Type} [DecidableEq ε] [DecidableEq α] : DecidableEq (Except ε α) :=
  fun x y =>
    match x, y with
    | .ok a, .ok b =>
      if h : a = b then .isTrue (by rw [h]) else .isFalse (by simp [h])
    | .error a, .error b =>
      if h : a = b then .isTrue (by rw [h]) else .isFalse (by simp [h])
    | .ok _, .error _ => .isFalse (by simp)
    | .error _, .ok _ => .isFalse (by simp)

/-! ### Avatar payload validation (`_validate_avatar_payload`,
`src/routes/api_routes.py` lines 194-287) -/

/-- A normalised value stored into the `cleaned` dict by the validator. -/
inductive CleanVal
  | cStr (s : String)
  | cInt (n : Int)
  | cNum (q : ℚ)
  | cNull
  deriving DecidableEq

/-- Insertion sort on strings (Python `sorted` for the unknown-field message). -/
def insertSorted (s : String) : List String → List String
  | [] => [s]
  | t :: ts => if s ≤ t then s :: t :: ts else t :: insertSorted s ts

/-- Python `sorted` on a list of strings. -/
def sortStrings (l : List String) : List String := l.foldr insertSorted []

/-- Python `sep.join(items)`. -/
def joinSep (sep : String) : List String → String
  | [] => ""
  | [s] => s
  | s :: rest => s ++ sep ++ joinSep sep rest

/-- The strict allow-list of avatar payload fields (lines 198-209). -/
def allowedAvatarFields : List String :=
  ["display_name", "age", "gender", "height_cm", "weight_kg", "body_fat_percent",
   "shoulder_circumference_cm", "waist_cm", "hips_cm", "notes"]

/-- The allowed gender values (lines 239-245). -/
def allowedGenders : List String :=
  ["male", "female", "non-binary", "other", "prefer_not_to_say"]

/-- The `numeric_constraints` dict (lines 252-259), in insertion order. -/
def numericConstraints : List (String × Int × Int) :=
  [("height_cm", 50, 300), ("weight_kg", 20, 500), ("body_fat_percent", 0, 80),
   ("shoulder_circumference_cm", 20, 300), ("waist_cm", 30, 300), ("hips_cm", 30, 300)]

/-- The `display_name` step (lines 217-221). -/
def displayNameStep (payload : List (String × PyVal)) (cleaned : List (String × CleanVal)) :
    Except String (List (String × CleanVal)) :=
  match jsonGet payload "display_name" with
  | none => .ok cleaned
  | some v =>
    let dn := stripStr (pyStr v)
    if dn ≠ "" && dn.length > 255 then .error "Display name must be 255 characters or less"
    else .ok (cleaned ++ [("display_name", if dn = "" then .cNull else .cStr dn)])

/-- The `age` step (lines 223-234): Python `int()` coercion — which truncates
floats toward zero — then the 0-120 range check on the truncated value. -/
def ageStep (payload : List (String × PyVal)) (cleaned : List (String × CleanVal)) :
    Except String (List (String × CleanVal)) :=
  match jsonGet payload "age" with
  | none => .ok cleaned
  | some v =>
    if v = .vNull || stripStr (pyStr v) = "" then .ok (cleaned ++ [("age", .cNull)])
    else match pyInt v with
      | none => .error "Age must be an integer"
      | some a =>
        if a < 0 || a > 120 then .error "Age must be between 0 and 120"
        else .ok (cleaned ++ [("age", .cInt a)])

/-- The `gender` step (lines 236-250). -/
def genderStep (payload : List (String × PyVal)) (cleaned : List (String × CleanVal)) :
    Except String (List (String × CleanVal)) :=
  match jsonGet payload "gender" with
  | none => .ok cleaned
  | some v =>
    let g := lowerStr (stripStr (pyStr v))
    if g ≠ "" then
      if !allowedGenders.contains g then
        .error "Gender must be one of: male, female, non-binary, other, prefer_not_to_say"
      else .ok (cleaned ++ [("gender", .cStr g)])
    else .ok (cleaned ++ [("gender", .cNull)])

/-- One iteration of the numeric-constraints loop (lines 261-273): empty and
null normalise to absent, non-numeric raises, out-of-range raises naming the
field and its bounds. -/
def checkNumericField (payload : List (String × PyVal)) (cleaned : List (String × CleanVal))
    (f : String) (lo hi : Int) : Except String (List (String × CleanVal)) :=
  match jsonGet payload f with
  | none => .ok cleaned
  | some raw =>
    if raw = .vNull || stripStr (pyStr raw) = "" then .ok (cleaned ++ [(f, .cNull)])
    else match pyFloat raw with
      | none => .error (f ++ " must be a number")
      | some q =>
        if q < (lo : ℚ) || q > (hi : ℚ) then
          .error (f ++ " must be between " ++ toString lo ++ " and " ++ toString hi)
        else .ok (cleaned ++ [(f, .cNum q)])

/-- The `notes` step (lines 275-279). -/
def notesStep (payload : List (String × PyVal)) (cleaned : List (String × CleanVal)) :
    Except String (List (String × CleanVal)) :=
  match jsonGet payload "notes" with
  | none => .ok cleaned
  | some v =>
    let nv := stripStr (pyStr v)
    if nv ≠ "" && nv.length > 1000 then .error "Notes must be 1000 characters or less"
    else .ok (cleaned ++ [("notes", if nv = "" then .cNull else .cStr nv)])

/-- `_validate_avatar_payload` (lines 194-287). The `.error` string is the
`ValueError` message the route handlers convert into a 400 envelope. -/
def validateAvatarPayload (payload : List (String × PyVal)) (part : Bool) :
    Except String (List (String × CleanVal)) :=
  let unknown := (payload.map (·.1)).filter (fun k => !allowedAvatarFields.contains k)
  if unknown ≠ [] then
    .error ("Unsupported avatar fields: " ++ joinSep ", " (sortStrings unknown))
  else do
    let c ← displayNameStep payload []
    let c ← ageStep payload c
    let c ← genderStep payload c
    let c ← numericConstraints.foldlM
      (fun c fc => checkNumericField payload c fc.1 fc.2.1 fc.2.2) c
    let c ← notesStep payload c
    if !part && c.isEmpty then .error "At least one avatar attribute must be provided"
    else if part && c.isEmpty then .error "No valid avatar fields provided for update"
    else .ok c

/-! ### Events and route handlers (`src/routes/api_routes.py`) -/

/-- An inbound API Gateway event. The body is the parsed JSON object
(`none` = a body `json.loads` rejects; an absent body defaults to `{}`,
i.e. `some []`). -/
structure Event where
  path : String
  httpMethod : String
  queryStringParameters : Option (List (String × String))
  body : Option (List (String × PyVal))
  deriving DecidableEq

/-- `query_params.get(key)` (string-valued query parameters). -/
def qpGet (qp : List (String × String)) (key : String) : Option String :=
  (qp.find? (fun kv => kv.1 = key)).map (·.2)

/-- `_parse_positive_int` (`src/routes/api_routes.py` lines 184-191): parse,
require strictly positive, raise `ValueError` with the given message otherwise. -/
def parsePositiveInt (value : String) (errorMessage : String) : Except String Int :=
  match parsePyIntStr value with
  | none => .error errorMessage
  | some n => if n ≤ 0 then .error errorMessage else .ok n

/-- Result of a route handler: the envelope, the database afterwards, and the
SQL statements issued while handling. -/
structure RouteOut where
  response : Response
  db : DbState
  trace : List Stmt
  deriving DecidableEq

/-- Lookup of a string field in a validator result. -/
def cleanedStr (cleaned : List (String × CleanVal)) (f : String) : Option String :=
  match cleaned.find? (fun kv => kv.1 = f) with
  | some (_, .cStr s) => some s
  | _ => none

/-- Lookup of an int field in a validator result. -/
def cleanedInt (cleaned : List (String × CleanVal)) (f : String) : Option Int :=
  match cleaned.find? (fun kv => kv.1 = f) with
  | some (_, .cInt n) => some n
  | _ => none

/-- Lookup of a numeric field in a validator result. -/
def cleanedNum (cleaned : List (String × CleanVal)) (f : String) : Option ℚ :=
  match cleaned.find? (fun kv => kv.1 = f) with
  | some (_, .cNum q) => some q
  | _ => none

/-- Avatar row built from a validated payload, as the intended
`INSERT INTO avatars ... RETURNING *` would produce it. Reachable only if the
avatar model call succeeded, which it never does (see `callAvatarMethod`). -/
def avatarFromCleaned (db : DbState) (userId : Int) (cleaned : List (String × CleanVal))
    (now : Nat) : AvatarRow :=
  { id := nextAvatarId db, user_id := userId,
    display_name := cleanedStr cleaned "display_name",
    age := cleanedInt cleaned "age",
    gender := cleanedStr cleaned "gender",
    height_cm := cleanedNum cleaned "height_cm",
    weight_kg := cleanedNum cleaned "weight_kg",
    body_fat_percent := cleanedNum cleaned "body_fat_percent",
    shoulder_circumference_cm := cleanedNum cleaned "shoulder_circumference_cm",
    waist_cm := cleanedNum cleaned "waist_cm",
    hips_cm := cleanedNum cleaned "hips_cm",
    notes := cleanedStr cleaned "notes",
    created_at := now, updated_at := now }

/-- `create_avatar` (`src/routes/api_routes.py` lines 290-307). After id and
payload validation the handler calls `avatar_model.create(user_id_int, payload)`
with two positional arguments; `Avatar.create` accepts none, so the call raises
`TypeError`, caught by the generic handler as a 500. The success continuation
after the call is therefore unreachable. -/
def create_avatar (user_id : String) (event : Event) (db : DbState) (now : Nat) : RouteOut :=
  match parsePositiveInt user_id "Invalid user ID format" with
  | .error m => ⟨create_error_response 400 m none, db, []⟩
  | .ok uid =>
    match event.body with
    | none => ⟨create_error_response 400 "Invalid JSON in request body" none, db, []⟩
    | some body =>
      match validateAvatarPayload body false with
      | .error m => ⟨create_error_response 400 m none, db, []⟩
      | .ok cleaned =>
        match callAvatarMethod "create" 2 with
        | .error exc =>
          ⟨create_error_response 500 "Failed to create avatar" (some exc.text), db, []⟩
        | .ok _ =>
          let row := avatarFromCleaned db uid cleaned now
          ⟨create_success_response (.dAvatar row) (some "Avatar created successfully"),
            { db with avatars := row :: db.avatars }, [.insertAvatar]⟩

/-- `list_avatars` (lines 310-321). Calls `avatar_model.list_for_user(user_id)`,
an attribute `Avatar` does not define: `AttributeError`, converted to a 500. -/
def list_avatars (user_id : String) (db : DbState) : RouteOut :=
  match parsePositiveInt user_id "Invalid user ID format" with
  | .error m => ⟨create_error_response 400 m none, db, []⟩
  | .ok uid =>
    match callAvatarMethod "list_for_user" 1 with
    | .error exc =>
      ⟨create_error_response 500 "Failed to retrieve avatars" (some exc.text), db, []⟩
    | .ok _ =>
      ⟨create_success_response (.dAvatars (dbAvatarsForUser db uid))
        (some "Avatars retrieved successfully"), db, [.selectAvatarsByUser]⟩

/-- `get_avatar` (lines 324-341). Calls `avatar_model.get(user_id_int,
avatar_id_int)` with two positional arguments; `Avatar.get` takes one:
`TypeError`, converted to a 500. The 404 branch below the call is unreachable. -/
def get_avatar (user_id avatar_id : String) (db : DbState) : RouteOut :=
  match parsePositiveInt user_id "Invalid user ID format" with
  | .error m => ⟨create_error_response 400 m none, db, []⟩
  | .ok _ =>
    match parsePositiveInt avatar_id "Invalid avatar ID format" with
    | .error m => ⟨create_error_response 400 m none, db, []⟩
    | .ok aid =>
      match callAvatarMethod "get" 2 with
      | .error exc =>
        ⟨create_error_response 500 "Failed to retrieve avatar" (some exc.text), db, []⟩
      | .ok _ =>
        match dbAvatarById db aid with
        | none => ⟨create_error_response 404 "Avatar not found" none, db, [.selectAvatarById]⟩
        | some a =>
          ⟨create_success_response (.dAvatar a) (some "Avatar retrieved successfully"),
            db, [.selectAvatarById]⟩

/-- `update_avatar` (lines 344-365). Calls `avatar_model.update(...)`, an
attribute `Avatar` does not define (the class names it `update_partial`):
`AttributeError`, converted to a 500. -/
def update_avatar (user_id avatar_id : String) (event : Event) (db : DbState) (now : Nat) :
    RouteOut :=
  match parsePositiveInt user_id "Invalid user ID format" with
  | .error m => ⟨create_error_response 400 m none, db, []⟩
  | .ok _ =>
    match parsePositiveInt avatar_id "Invalid avatar ID format" with
    | .error m => ⟨create_error_response 400 m none, db, []⟩
    | .ok aid =>
      match event.body with
      | none => ⟨create_error_response 400 "Invalid JSON in request body" none, db, []⟩
      | some body =>
        match validateAvatarPayload body true with
        | .error m => ⟨create_error_response 400 m none, db, []⟩
        | .ok _ =>
          match callAvatarMethod "update" 3 with
          | .error exc =>
            ⟨create_error_response 500 "Failed to update avatar" (some exc.text), db, []⟩
          | .ok _ =>
            match dbAvatarById db aid with
            | none =>
              ⟨create_error_response 404 "Avatar not found" none, db, [.updateAvatar]⟩
            | some a =>
              ⟨create_success_response (.dAvatar { a with updated_at := now })
                (some "Avatar updated successfully"), db, [.updateAvatar]⟩

/-- `delete_avatar` (lines 368-385). Calls `avatar_model.delete(user_id_int,
avatar_id_int)` with two positional arguments; `Avatar.delete` takes one:
`TypeError`, converted to a 500. The 404 branch is unreachable. -/
def delete_avatar (user_id avatar_id : String) (db : DbState) : RouteOut :=
  match parsePositiveInt user_id "Invalid user ID format" with
  | .error m => ⟨create_error_response 400 m none, db, []⟩
  | .ok _ =>
    match parsePositiveInt avatar_id "Invalid avatar ID format" with
    | .error m => ⟨create_error_response 400 m none, db, []⟩
    | .ok aid =>
      match callAvatarMethod "delete" 2 with
      | .error exc =>
        ⟨create_error_response 500 "Failed to delete avatar" (some exc.text), db, []⟩
      | .ok _ =>
        match dbAvatarById db aid with
        | none => ⟨create_error_response 404 "Avatar not found" none, db, [.deleteAvatar]⟩
        | some _ =>
          ⟨create_success_response (.dId aid) (some "Avatar deleted successfully"),
            { db with avatars := db.avatars.filter (fun a => a.id ≠ aid) }, [.deleteAvatar]⟩

/-! ### User routes (`src/routes/api_routes.py`) -/

/-- The `search` filter of `User.get_all` / `User.count`
(`WHERE name ILIKE %s OR email ILIKE %s`), applied only when the term is
truthy, as in the Python `if search:` guard. -/
def userSearchFilter (db : DbState) (search : Option String) : List UserRow :=
  match search with
  | some s =>
    if s ≠ "" then db.users.filter (fun u => containsCI u.name s || containsCI u.email s)
    else db.users
  | none => db.users

/-- `User.get_all` query semantics (`src/models/user.py` lines 18-42):
filter, then `LIMIT %s OFFSET %s`. PostgreSQL rejects negative LIMIT/OFFSET
values with a driver error, which `execute_query` wraps. -/
def dbGetAllUsers (db : DbState) (limit offset : Int) (search : Option String) :
    Except PyExc (List UserRow) :=
  if limit < 0 || offset < 0 then
    .error (.dbError "Database query failed: LIMIT must not be negative")
  else .ok (((userSearchFilter db search).drop offset.toNat).take limit.toNat)

/-- `User.count` query semantics (`src/models/user.py` lines 193-210). -/
def dbCountUsers (db : DbState) (search : Option String) : Int :=
  (userSearchFilter db search).length

/-- Python `'@' not in email or '.' not in email.split('@')[-1]` negated:
the basic email format test of `create_user` and `update_user`. -/
def emailFormatOk (email : String) : Bool :=
  email.data.contains '@' && ((splitStr email '@').getLastD "").data.contains '.'

/-- Python `.strip()` as a method call: only strings have it; any other
payload value raises `AttributeError` (caught as a 500 by the user routes). -/
def pyStripAttr : PyVal → Except PyExc String
  | .vStr s => .ok (stripStr s)
  | _ => .error (.attributeError "value has no attribute strip")

/-- The effective `limit` of the listing endpoints: Python
`min(int(query_params.get('limit', <default>)), 100)`
(`src/routes/api_routes.py` lines 394 and 621). The cap at 100 is the only
clamping performed; there is no lower bound. -/
def effectiveLimit (raw : Option String) (dflt : Int) : Except PyExc Int :=
  match raw with
  | none => .ok (min dflt 100)
  | some s =>
    match parsePyIntStr s with
    | none => .error (.valueError ("invalid literal for int: " ++ s))
    | some n => .ok (min n 100)

/-- The effective `offset` of the listing endpoints: Python
`int(query_params.get('offset', 0))` (lines 395 and 622); no constraint is
applied to the parsed value. -/
def effectiveOffset (raw : Option String) : Except PyExc Int :=
  match raw with
  | none => .ok 0
  | some s =>
    match parsePyIntStr s with
    | none => .error (.valueError ("invalid literal for int: " ++ s))
    | some n => .ok n

/-- `get_users` (`src/routes/api_routes.py` lines 387-419). A `limit` of zero
reaches `page = (offset // limit) + 1` and raises `ZeroDivisionError`, caught
by the generic handler as a 500. -/
def get_users (event : Event) (db : DbState) : RouteOut :=
  let qp := event.queryStringParameters.getD []
  match effectiveLimit (qpGet qp "limit") 10 with
  | .error e => ⟨create_error_response 400 "Invalid query parameters" (some e.text), db, []⟩
  | .ok limit =>
    match effectiveOffset (qpGet qp "offset") with
    | .error e => ⟨create_error_response 400 "Invalid query parameters" (some e.text), db, []⟩
    | .ok offset =>
      let search := qpGet qp "search"
      match dbGetAllUsers db limit offset search with
      | .error e =>
        ⟨create_error_response 500 "Failed to retrieve users" (some e.text), db, [.selectUsers]⟩
      | .ok users =>
        let total := dbCountUsers db search
        if limit = 0 then
          ⟨create_error_response 500 "Failed to retrieve users"
            (some "integer division or modulo by zero"), db, [.selectUsers, .countUsers]⟩
        else
          ⟨create_paginated_response (.dUsers users) (Int.fdiv offset limit + 1) limit total
            (some ("Retrieved " ++ toString users.length ++ " users")),
            db, [.selectUsers, .countUsers]⟩

/-- `create_user` (`src/routes/api_routes.py` lines 422-472): trim and
lower-case, validate, then `User.create` — whose duplicate-email `ValueError`
comes back as a 400. -/
def create_user (event : Event) (db : DbState) (now : Nat) : RouteOut :=
  match event.body with
  | none => ⟨create_error_response 400 "Invalid JSON in request body" none, db, []⟩
  | some body =>
    match pyStripAttr ((jsonGet body "name").getD (.vStr "")) with
    | .error exc => ⟨create_error_response 500 "Failed to create user" (some exc.text), db, []⟩
    | .ok name =>
      match pyStripAttr ((jsonGet body "email").getD (.vStr "")) with
      | .error exc => ⟨create_error_response 500 "Failed to create user" (some exc.text), db, []⟩
      | .ok email0 =>
        let email := lowerStr email0
        if name = "" || email = "" then
          ⟨create_error_response 400 "Name and email are required" none, db, []⟩
        else if name.length < 2 || name.length > 100 then
          ⟨create_error_response 400 "Name must be between 2 and 100 characters" none, db, []⟩
        else if !emailFormatOk email then
          ⟨create_error_response 400 "Invalid email format" none, db, []⟩
        else
          match pyStripAttr ((jsonGet body "phone").getD (.vStr "")) with
          | .error exc =>
            ⟨create_error_response 500 "Failed to create user" (some exc.text), db, []⟩
          | .ok phone =>
            match pyStripAttr ((jsonGet body "bio").getD (.vStr "")) with
            | .error exc =>
              ⟨create_error_response 500 "Failed to create user" (some exc.text), db, []⟩
            | .ok bio =>
              if phone ≠ "" && phone.length > 20 then
                ⟨create_error_response 400 "Phone number too long" none, db, []⟩
              else if bio ≠ "" && bio.length > 500 then
                ⟨create_error_response 400 "Bio must be less than 500 characters" none, db, []⟩
              else
                match userCreateS db now name email (if phone = "" then none else some phone)
                    (if bio = "" then none else some bio) with
                | (.error exc, db2, tr) =>
                  if exc.isValueError then
                    ⟨create_error_response 400 exc.text none, db2, tr⟩
                  else
                    ⟨create_error_response 500 "Failed to create user" (some exc.text), db2, tr⟩
                | (.ok row, db2, tr) =>
                  ⟨create_success_response (.dUser row) (some "User created successfully"),
                    db2, tr⟩

/-- `get_user` (`src/routes/api_routes.py` lines 475-502): fetch, then augment
with `avatar_model.list_for_user(...)` — an attribute `Avatar` does not
define, so an existing user produces a 500, not the success envelope. -/
def get_user (user_id : String) (db : DbState) : RouteOut :=
  match parsePositiveInt user_id "Invalid user ID format" with
  | .error m => ⟨create_error_response 400 m none, db, []⟩
  | .ok uid =>
    match dbUserById db uid with
    | none => ⟨create_error_response 404 "User not found" none, db, [.selectUserById]⟩
    | some u =>
      match callAvatarMethod "list_for_user" 1 with
      | .error exc =>
        ⟨create_error_response 500 "Failed to retrieve user" (some exc.text), db,
          [.selectUserById]⟩
      | .ok _ =>
        ⟨create_success_response (.dUserWithAvatars u (dbAvatarsForUser db uid))
          (some "User retrieved successfully"), db, [.selectUserById, .selectAvatarsByUser]⟩

/-- The update-field collection of `update_user`
(`src/routes/api_routes.py` lines 520-553), mirroring the per-field
early-return validation; `Sum.inl` carries an early 400 response, `Sum.inr`
an `AttributeError` from `.strip()` on a non-string. -/
def collectUserUpdates (body : List (String × PyVal)) :
    Except (Sum Response PyExc) (List UserField) := do
  let u0 : List UserField := []
  let u1 ← match jsonGet body "name" with
    | none => pure u0
    | some v =>
      match pyStripAttr v with
      | .error exc => throw (.inr exc)
      | .ok name =>
        if name = "" then throw (.inl (create_error_response 400 "Name cannot be empty" none))
        else if name.length < 2 || name.length > 100 then
          throw (.inl (create_error_response 400 "Name must be between 2 and 100 characters" none))
        else pure (u0 ++ [.fName name])
  let u2 ← match jsonGet body "email" with
    | none => pure u1
    | some v =>
      match pyStripAttr v with
      | .error exc => throw (.inr exc)
      | .ok email0 =>
        let email := lowerStr email0
        if email = "" then throw (.inl (create_error_response 400 "Email cannot be empty" none))
        else if !emailFormatOk email then
          throw (.inl (create_error_response 400 "Invalid email format" none))
        else pure (u1 ++ [.fEmail email])
  let u3 ← match jsonGet body "phone" with
    | none => pure u2
    | some v =>
      if pyTruthy v then
        match pyStripAttr v with
        | .error exc => throw (.inr exc)
        | .ok phone =>
          if phone ≠ "" && phone.length > 20 then
            throw (.inl (create_error_response 400 "Phone number too long" none))
          else pure (u2 ++ [.fPhone (some phone)])
      else pure (u2 ++ [.fPhone none])
  match jsonGet body "bio" with
    | none => pure u3
    | some v =>
      if pyTruthy v then
        match pyStripAttr v with
        | .error exc => throw (.inr exc)
        | .ok bio =>
          if bio ≠ "" && bio.length > 500 then
            throw (.inl (create_error_response 400 "Bio must be less than 500 characters" none))
          else pure (u3 ++ [.fBio (some bio)])
      else pure (u3 ++ [.fBio none])

/-- `update_user` (`src/routes/api_routes.py` lines 505-574). -/
def update_user (user_id : String) (event : Event) (db : DbState) (now : Nat) : RouteOut :=
  match parsePositiveInt user_id "Invalid user ID format" with
  | .error m => ⟨create_error_response 400 m none, db, []⟩
  | .ok uid =>
    match event.body with
    | none => ⟨create_error_response 400 "Invalid JSON in request body" none, db, []⟩
    | some body =>
      match collectUserUpdates body with
      | .error (.inl resp) => ⟨resp, db, []⟩
      | .error (.inr exc) =>
        ⟨create_error_response 500 "Failed to update user" (some exc.text), db, []⟩
      | .ok updates =>
        if updates.isEmpty then
          ⟨create_error_response 400 "No valid fields to update" none, db, []⟩
        else
          match userUpdateS db now uid updates with
          | (.error exc, db2, tr) =>
            if exc.isValueError then ⟨create_error_response 400 exc.text none, db2, tr⟩
            else ⟨create_error_response 500 "Failed to update user" (some exc.text), db2, tr⟩
          | (.ok none, db2, tr) =>
            ⟨create_error_response 404 "User not found" none, db2, tr⟩
          | (.ok (some row), db2, tr) =>
            ⟨create_success_response (.dUser row) (some "User updated successfully"), db2, tr⟩

/-- `delete_user` (`src/routes/api_routes.py` lines 577-604): a `False` from
`User.delete` — the affected-row count was zero — becomes a 404. -/
def delete_user (user_id : String) (db : DbState) : RouteOut :=
  match parsePositiveInt user_id "Invalid user ID format" with
  | .error m => ⟨create_error_response 400 m none, db, []⟩
  | .ok uid =>
    match userDeleteS db uid with
    | (.error exc, db2, tr) =>
      ⟨create_error_response 500 "Failed to delete user" (some exc.text), db2, tr⟩
    | (.ok false, db2, tr) => ⟨create_error_response 404 "User not found" none, db2, tr⟩
    | (.ok true, db2, tr) =>
      ⟨create_success_response (.dId uid) (some "User deleted successfully"), db2, tr⟩

/-- `search_users` (`src/routes/api_routes.py` lines 607-644); the search
default limit is 20, and `limit = 0` again reaches the zero division. -/
def search_users (event : Event) (db : DbState) : RouteOut :=
  let qp := event.queryStringParameters.getD []
  let searchTerm := stripStr ((qpGet qp "q").getD "")
  if searchTerm = "" then
    ⟨create_error_response 400 "Search term is required (use ?q=search_term)" none, db, []⟩
  else if searchTerm.length < 2 then
    ⟨create_error_response 400 "Search term must be at least 2 characters" none, db, []⟩
  else
    match effectiveLimit (qpGet qp "limit") 20 with
    | .error e => ⟨create_error_response 400 "Invalid query parameters" (some e.text), db, []⟩
    | .ok limit =>
      match effectiveOffset (qpGet qp "offset") with
      | .error e => ⟨create_error_response 400 "Invalid query parameters" (some e.text), db, []⟩
      | .ok offset =>
        match dbGetAllUsers db limit offset (some searchTerm) with
        | .error e =>
          ⟨create_error_response 500 "Failed to search users" (some e.text), db, [.selectUsers]⟩
        | .ok users =>
          let total := dbCountUsers db (some searchTerm)
          if limit = 0 then
            ⟨create_error_response 500 "Failed to search users"
              (some "integer division or modulo by zero"), db, [.selectUsers, .countUsers]⟩
          else
            ⟨create_paginated_response (.dUsers users) (Int.fdiv offset limit + 1) limit total
              (some ("Found " ++ toString users.length ++ " users matching \"" ++
                searchTerm ++ "\"")), db, [.selectUsers, .countUsers]⟩

/-! ### Dispatcher and entry adapter (`api_routes.handle_request`, `app.py`) -/

/-- Environment of a run: whether a fresh database connection can be
established (`get_database_connection_with_retry` succeeds), whether the
`SELECT 1` probe succeeds, and the server clock tick for `NOW()`. -/
structure Ctx where
  connAvail : Bool
  probeOk : Bool
  now : Nat
  deriving DecidableEq

/-- `handle_status_basic` (`src/routes/api_routes.py` lines 63-80): static
health payload, no database involved (timestamp/environment abstracted). -/
def handle_status_basic : Response :=
  create_success_response .dHealthBasic none

/-- `handle_status_with_db` (lines 83-110): run the `SELECT 1` probe; a
driver failure becomes a 503. -/
def handle_status_with_db (ctx : Ctx) (db : DbState) : RouteOut :=
  if ctx.probeOk then
    ⟨create_success_response .dHealthDb none, db, [.probe]⟩
  else
    ⟨create_error_response 503 "Database health check failed" (some "probe failed"), db, [.probe]⟩

/-- `handle_v1_routes` (`src/routes/api_routes.py` lines 126-182): the
segment-count and keyword matching, in source order. The second
`elif route == '/users/search'` at line 179 is unreachable (the exact match
at line 147 fires first) and therefore has no counterpart here. -/
def handle_v1_routes (event : Event) (db : DbState) (now : Nat) : RouteOut :=
  let path := event.path
  let method := event.httpMethod
  if method = "OPTIONS" then ⟨create_response 200 (.plain "CORS preflight"), db, []⟩
  else
    let route0 := replaceAll path "/api/v1" ""
    let route := if route0 = "" then "/" else route0
    let segments := (splitStr route '/').filter (· ≠ "")
    let notFound : RouteOut :=
      ⟨create_error_response 404 ("Route not found: " ++ method ++ " " ++ route) none, db, []⟩
    if route = "/users" && method = "GET" then get_users event db
    else if route = "/users" && method = "POST" then create_user event db now
    else if route = "/users/search" && method = "GET" then search_users event db
    else if segments.length ≥ 2 && segments.getD 0 "" = "users" &&
        segments.getD 1 "" = "search" then notFound
    else if segments.length ≥ 3 && segments.getD 0 "" = "users" &&
        segments.getD 2 "" = "avatars" then
      let userId := segments.getD 1 ""
      let avatarSegments := segments.drop 3
      if avatarSegments.isEmpty then
        if method = "POST" then create_avatar userId event db now
        else if method = "GET" then list_avatars userId db
        else notFound
      else if avatarSegments.length = 1 then
        let avatarId := avatarSegments.getD 0 ""
        if method = "GET" then get_avatar userId avatarId db
        else if method = "PATCH" then update_avatar userId avatarId event db now
        else if method = "DELETE" then delete_avatar userId avatarId db
        else notFound
      else notFound
    else if segments.length ≥ 2 && segments.getD 0 "" = "users" then
      let userId := segments.getD 1 ""
      if method = "GET" then get_user userId db
      else if method = "PUT" then update_user userId event db now
      else if method = "DELETE" then delete_user userId db
      else notFound
    else notFound

/-- `handle_request` (`src/routes/api_routes.py` lines 15-60). `conn` says
whether the caller passed an open connection down. -/
def handle_request (event : Event) (conn : Bool) (ctx : Ctx) (db : DbState) : RouteOut :=
  let method := event.httpMethod
  let path := event.path
  if method = "OPTIONS" then ⟨create_response 200 (.plain "CORS preflight"), db, []⟩
  else if path = "/status" && method = "GET" then ⟨handle_status_basic, db, []⟩
  else if path = "/status/db" && method = "GET" then
    if !conn then
      if ctx.connAvail then handle_status_with_db ctx db
      else
        ⟨create_error_response 503 "Database connection failed" (some "connection error"), db, []⟩
    else handle_status_with_db ctx db
  else if startsWithStr path "/api/v1" then
    if !conn then
      ⟨create_error_response 503 "Database connection required but not available" none, db, []⟩
    else handle_v1_routes event db ctx.now
  else ⟨create_error_response 404 "Endpoint not found" none, db, []⟩

/-- Outcome of a full Lambda invocation: the response, whether a database
connection was established during the invocation, the database afterwards,
and the statements executed. -/
structure LambdaOut where
  response : Response
  connected : Bool
  db : DbState
  trace : List Stmt
  deriving DecidableEq

/-- `lambda_handler` (`src/app.py` lines 14-57): `OPTIONS` returns
immediately before any connection is made; `/status` is routed without a
connection; everything else first establishes a connection (a failure
surfaces as a 500 from the outermost handler). -/
def lambda_handler (event : Event) (ctx : Ctx) (db : DbState) : LambdaOut :=
  if event.httpMethod = "OPTIONS" then
    ⟨create_response 200 (.plain "CORS preflight"), false, db, []⟩
  else if event.path = "/status" then
    let r := handle_request event false ctx db
    ⟨r.response, false, r.db, r.trace⟩
  else if ctx.connAvail then
    let r := handle_request event true ctx db
    ⟨r.response, true, r.db, r.trace⟩
  else
    ⟨create_error_response 500 "Internal server error" (some "connection error"), false, db, []⟩

/-! ### Transaction discipline (`execute_query` plus the model layer)

This layer models what happens on the connection when the driver succeeds or
fails during statement execution. Each model-layer write operation is a
function of the driver outcome of every statement it may execute, returning
the propagated result and the ordered connection actions
(`execute` / `commit` / `rollback`). The row type is a parameter: only the
shape of the result matters here.
-/

/-- An action taken on the psycopg2 connection. -/
inductive TxAction
  | exec
  | commit
  | rollback
  deriving DecidableEq

/-- Outcome the driver reports for one fetching statement execution. -/
inductive DriverOutcome (α : Type)
  | ok (rows : List α)
  | queryError (e : String)
  | canceled (e : String)
  deriving DecidableEq

/-- Did the driver report a failure? -/
def DriverOutcome.isFail {α : Type} : DriverOutcome α → Bool
  | .ok _ => false
  | _ => true

/-- Outcome the driver reports for a non-fetching statement (`fetch=False`). -/
inductive NoFetchOutcome
  | okCount (n : Int)
  | queryError (e : String)
  | canceled (e : String)
  deriving DecidableEq

/-- Did the driver report a failure? -/
def NoFetchOutcome.isFail : NoFetchOutcome → Bool
  | .okCount _ => false
  | _ => true

/-- `execute_query` with `fetch=True` (`src/utils/database.py` lines 136-187):
a `QueryCanceledError` is wrapped as "Database query timeout", any other
driver error as "Database query failed"; both paths roll the connection back
before re-raising. -/
def executeQueryTx {α : Type} : DriverOutcome α → Except PyExc (List α) × List TxAction
  | .ok rows => (.ok rows, [.exec])
  | .queryError e => (.error (.dbError ("Database query failed: " ++ e)), [.exec, .rollback])
  | .canceled e => (.error (.dbError ("Database query timeout: " ++ e)), [.exec, .rollback])

/-- `execute_query` with `fetch=False` (line 170-172): commits on success and
returns the affected-row count. -/
def executeQueryNoFetchTx : NoFetchOutcome → Except PyExc Int × List TxAction
  | .okCount n => (.ok n, [.exec, .commit])
  | .queryError e => (.error (.dbError ("Database query failed: " ++ e)), [.exec, .rollback])
  | .canceled e => (.error (.dbError ("Database query timeout: " ++ e)), [.exec, .rollback])

/-- `User.create` transaction behaviour (`src/models/user.py` lines 87-120):
`o1` is the driver outcome of the `get_by_email` SELECT, `o2` of the INSERT.
Any exception inside the `try` triggers the model-layer rollback and is
re-raised; success commits before indexing `result[0]`. -/
def userCreateTx {α : Type} (email : String) (o1 o2 : DriverOutcome α) :
    Except PyExc α × List TxAction :=
  match executeQueryTx o1 with
  | (.error e, tr) => (.error e, tr ++ [.rollback])
  | (.ok (_ :: _), tr) =>
    (.error (.valueError ("User with email " ++ email ++ " already exists")), tr ++ [.rollback])
  | (.ok [], tr) =>
    match executeQueryTx o2 with
    | (.error e, tr2) => (.error e, tr ++ tr2 ++ [.rollback])
    | (.ok [], tr2) =>
      (.error (.indexError "list index out of range"), tr ++ tr2 ++ [.commit, .rollback])
    | (.ok (r :: _), tr2) => (.ok r, tr ++ tr2 ++ [.commit])

/-- `User.update` transaction behaviour (lines 122-165): `o1` is the
`get_by_id` SELECT, `o2` the dynamic UPDATE (executed only when the row
exists and at least one allowed field is supplied). -/
def userUpdateTx {α : Type} (updates : List UserField) (o1 o2 : DriverOutcome α) :
    Except PyExc (Option α) × List TxAction :=
  match executeQueryTx o1 with
  | (.error e, tr) => (.error e, tr ++ [.rollback])
  | (.ok [], tr) => (.ok none, tr)
  | (.ok (_ :: _), tr) =>
    if updates.isEmpty then
      (.error (.valueError "No valid fields to update"), tr ++ [.rollback])
    else
      match executeQueryTx o2 with
      | (.error e, tr2) => (.error e, tr ++ tr2 ++ [.rollback])
      | (.ok [], tr2) =>
        (.error (.indexError "list index out of range"), tr ++ tr2 ++ [.commit, .rollback])
      | (.ok (r :: _), tr2) => (.ok (some r), tr ++ tr2 ++ [.commit])

/-- `User.delete` transaction behaviour (lines 167-191): `o1` is the
`get_by_id` SELECT, `o2` the DELETE run with `fetch=False`; success reports
`affected-row count > 0` and commits. -/
def userDeleteTx {α : Type} (o1 : DriverOutcome α) (o2 : NoFetchOutcome) :
    Except PyExc Bool × List TxAction :=
  match executeQueryTx o1 with
  | (.error e, tr) => (.error e, tr ++ [.rollback])
  | (.ok [], tr) => (.ok false, tr)
  | (.ok (_ :: _), tr) =>
    match executeQueryNoFetchTx o2 with
    | (.error e, tr2) => (.error e, tr ++ tr2 ++ [.rollback])
    | (.ok n, tr2) => (.ok (decide (n > 0)), tr ++ tr2 ++ [.commit])

/-- `Avatar.create` transaction behaviour (`src/models/avatar.py` lines
83-108): the required-field `ValueError` is raised before the `try`, so
without touching the connection; otherwise one INSERT, rollback on failure,
commit before indexing `rows[0]` on success. -/
def avatarCreateTx {α : Type} (kwargs : List (String × PyVal)) (o : DriverOutcome α) :
    Except PyExc α × List TxAction :=
  let missing := ["user_id", "display_name"].filter
    (fun f => !(pyTruthy ((jsonGet kwargs f).getD .vNull)))
  if missing ≠ [] then
    (.error (.valueError ("Missing required avatar fields: " ++ joinSep ", " missing)), [])
  else
    match executeQueryTx o with
    | (.error e, tr) => (.error e, tr ++ [.rollback])
    | (.ok [], tr) => (.error (.indexError "list index out of range"), tr ++ [.commit, .rollback])
    | (.ok (r :: _), tr) => (.ok r, tr ++ [.commit])

/-- `Avatar.update_partial` transaction behaviour (lines 110-139): the
empty-fields `ValueError` precedes the `try`; otherwise one UPDATE; the
commit happens before the empty-result check. -/
def avatarUpdateTx {α : Type} (fields : List (String × PyVal)) (o : DriverOutcome α) :
    Except PyExc (Option α) × List TxAction :=
  if fields.isEmpty then
    (.error (.valueError "No fields provided for avatar update"), [])
  else
    match executeQueryTx o with
    | (.error e, tr) => (.error e, tr ++ [.rollback])
    | (.ok [], tr) => (.ok none, tr ++ [.commit])
    | (.ok (r :: _), tr) => (.ok (some r), tr ++ [.commit])

/-- `Avatar.delete` transaction behaviour (lines 141-160): one
`DELETE ... RETURNING id`; success commits and reports whether any row came
back. -/
def avatarDeleteTx {α : Type} (o : DriverOutcome α) : Except PyExc Bool × List TxAction :=
  match executeQueryTx o with
  | (.error e, tr) => (.error e, tr ++ [.rollback])
  | (.ok rows, tr) => (.ok (!rows.isEmpty), tr ++ [.commit])

/-- Is the propagated result an error? -/
def exceptIsError {ε α : Type} : Except ε α → Bool
  | .error _ => true
  | .ok _ => false

/-! ### Rendered numbers contain no whitespace

The avatar validator tests `str(raw_value).strip() == ''` before coercing a
numeric field, so the general (non-closed) theorems about it need to know
that the rendering of a number is a nonempty whitespace-free string. -/

/-- `dropWhile` is the identity on a list none of whose elements satisfy the
predicate. -/
theorem dropWhile_eq_self_of_none {p : Char → Bool} :
    ∀ {l : List Char}, (∀ c ∈ l, p c = false) → l.dropWhile p = l
  | [], _ => rfl
  | c :: cs, h => by
    have hc : p c = false := h c (by simp)
    simp [List.dropWhile, hc]

/-- `stripStr` is the identity on whitespace-free strings. -/
theorem stripStr_eq_self (s : String) (h : ∀ c ∈ s.data, c.isWhitespace = false) :
    stripStr s = s := by
  have h1 : dropWs s.data = s.data := dropWhile_eq_self_of_none h
  have h2 : s.data.reverse.dropWhile Char.isWhitespace = s.data.reverse :=
    dropWhile_eq_self_of_none (by intro c hc; exact h c (List.mem_reverse.mp hc))
  unfold stripStr
  rw [h1, h2, List.reverse_reverse]

/-- A nonempty-data string is not the empty string. -/
theorem ne_empty_of_data_ne_nil {s : String} (h : s.data ≠ []) : s ≠ "" := by
  intro he
  exact h (by rw [he])

/-- Digit characters are never whitespace. -/
theorem digitChar_not_ws (n : Nat) : (Nat.digitChar n).isWhitespace = false := by
  rcases Nat.lt_or_ge n 16 with h | h
  · interval_cases n <;> decide
  · have e : Nat.digitChar n = '*' := by
      unfold Nat.digitChar
      iterate 16 rw [if_neg (by omega)]
    rw [e]; decide

/-- All characters `Nat.toDigitsCore` produces over a whitespace-free
accumulator are whitespace-free. -/
theorem toDigitsCore_not_ws :
    ∀ (fuel n : Nat) (ds : List Char), (∀ c ∈ ds, c.isWhitespace = false) →
      ∀ c ∈ Nat.toDigitsCore 10 fuel n ds, c.isWhitespace = false := by
  intro fuel
  induction fuel with
  | zero => intro n ds h; simpa [Nat.toDigitsCore] using h
  | succ fuel ih =>
    intro n ds h c hc
    unfold Nat.toDigitsCore at hc
    by_cases h10 : n / 10 = 0
    · simp only [h10, if_pos] at hc
      rcases List.mem_cons.mp hc with h' | h'
      · exact h' ▸ digitChar_not_ws _
      · exact h c h'
    · simp only [h10, if_neg, if_false] at hc
      refine ih (n / 10) (Nat.digitChar (n % 10) :: ds) ?_ c hc
      intro c' hc'
      rcases List.mem_cons.mp hc' with h' | h'
      · exact h' ▸ digitChar_not_ws _
      · exact h c' h'

/-- `Nat.toDigitsCore` never empties a nonempty accumulator. -/
theorem toDigitsCore_ne_nil :
    ∀ (fuel n : Nat) (ds : List Char), ds ≠ [] → Nat.toDigitsCore 10 fuel n ds ≠ [] := by
  intro fuel
  induction fuel with
  | zero => intro n ds h; simpa [Nat.toDigitsCore] using h
  | succ fuel ih =>
    intro n ds h
    unfold Nat.toDigitsCore
    by_cases h10 : n / 10 = 0
    · simp [h10]
    · simp only [h10, if_neg, if_false]
      exact ih (n / 10) (Nat.digitChar (n % 10) :: ds) (by simp)

/-- `Nat.toDigits` is never empty. -/
theorem toDigits_ne_nil (n : Nat) : Nat.toDigits 10 n ≠ [] := by
  unfold Nat.toDigits Nat.toDigitsCore
  by_cases h10 : n / 10 = 0
  · simp [h10]
  · simp only [h10, if_neg, if_false]
    exact toDigitsCore_ne_nil n (n / 10) (Nat.digitChar (n % 10) :: []) (by simp)

/-- The characters of `Nat.repr`. -/
theorem natRepr_data (n : Nat) : (Nat.repr n).data = Nat.toDigits 10 n := rfl

/-- `toString` of an integer contains no whitespace. -/
theorem intToString_not_ws (i : Int) : ∀ c ∈ (toString i).data, c.isWhitespace = false := by
  cases i with
  | ofNat m =>
    show ∀ c ∈ (Nat.repr m).data, c.isWhitespace = false
    rw [natRepr_data]
    exact toDigitsCore_not_ws (m + 1) m [] (by simp)
  | negSucc m =>
    show ∀ c ∈ ("-" ++ Nat.repr (m + 1)).data, c.isWhitespace = false
    intro c hc
    rw [String.data_append, List.mem_append] at hc
    rcases hc with h' | h'
    · have : c = '-' := by simpa using h'
      rw [this]; decide
    · rw [natRepr_data] at h'
      exact toDigitsCore_not_ws (m + 2) (m + 1) [] (by simp) c h'

/-- `toString` of an integer is nonempty. -/
theorem intToString_ne_empty (i : Int) : toString i ≠ "" := by
  cases i with
  | ofNat m =>
    show Nat.repr m ≠ ""
    refine ne_empty_of_data_ne_nil ?_
    rw [natRepr_data]
    exact toDigits_ne_nil m
  | negSucc m =>
    show "-" ++ Nat.repr (m + 1) ≠ ""
    refine ne_empty_of_data_ne_nil ?_
    rw [String.data_append]
    simp

/-- Stripping the rendering of an integer payload value changes nothing and
leaves a nonempty string. -/
theorem pyStr_vInt_strip (a : Int) :
    stripStr (pyStr (.vInt a)) = toString a ∧ pyStr (.vInt a) ≠ "" :=
  ⟨stripStr_eq_self _ (intToString_not_ws a), intToString_ne_empty a⟩

/-- Stripping the rendering of a rational payload value yields a nonempty
string. -/
theorem pyStr_vNum_strip_ne (q : ℚ) : stripStr (pyStr (.vNum q)) ≠ "" := by
  show stripStr (if q.den = 1 then toString q.num
    else toString q.num ++ "/" ++ toString q.den) ≠ ""
  by_cases hden : q.den = 1
  · rw [if_pos hden, stripStr_eq_self _ (intToString_not_ws q.num)]
    exact intToString_ne_empty q.num
  · rw [if_neg hden]
    rw [stripStr_eq_self]
    · refine ne_empty_of_data_ne_nil ?_
      rw [String.data_append, String.data_append]
      intro h
      rcases List.append_eq_nil.mp h with ⟨h1, _⟩
      rcases List.append_eq_nil.mp h1 with ⟨_, h2⟩
      simp at h2
    · intro c hc
      rw [String.data_append, String.data_append] at hc
      rcases List.mem_append.mp hc with h' | h'
      · rcases List.mem_append.mp h' with h'' | h''
        · exact intToString_not_ws q.num c h''
        · have : c = '/' := by simpa using h''
          rw [this]; decide
      · exact intToString_not_ws (q.den : Int) c h'

end Fitspace

namespace Fitspace

/-! ### Sample data used by closed theorems -/

/-- A user with id 1. -/
def sampleUserOne : UserRow :=
  { id := 1, name := "Jane Doe", email := "jane@x.com", phone := none, bio := none,
    created_at := 0, updated_at := 0 }

/-- A user with id 2. -/
def sampleUserTwo : UserRow :=
  { id := 2, name := "John Roe", email := "john@x.com", phone := none, bio := none,
    created_at := 0, updated_at := 0 }

/-- Avatar 5, owned by user 2. -/
def foreignAvatar : AvatarRow :=
  { id := 5, user_id := 2, display_name := some "Default", age := none, gender := none,
    height_cm := none, weight_kg := none, body_fat_percent := none,
    shoulder_circumference_cm := none, waist_cm := none, hips_cm := none, notes := none,
    created_at := 0, updated_at := 0 }

/-- Two users; avatar 5 belongs to user 2 (and user 1 owns no avatar). -/
def twoUserDb : DbState := ⟨[sampleUserOne, sampleUserTwo], [foreignAvatar]⟩

/-! ### Claim theorems -/

/-- C7: for every inbound event whose HTTP method is `OPTIONS`, regardless of
path, `lambda_handler` returns the 200 CORS acknowledgement immediately, no
database connection is established (`connected = false`), no statement is
executed (empty trace), and the database is untouched. -/
theorem c7_options_immediate_no_db (event : Event) (ctx : Ctx) (db : DbState)
    (h : event.httpMethod = "OPTIONS") :
    lambda_handler event ctx db =
      ⟨create_response 200 (.plain "CORS preflight"), false, db, []⟩ := by
  simp [lambda_handler, h]

/-- Witness for C7 at a concrete `OPTIONS` event. -/
theorem c7_options_immediate_no_db_witness :
    lambda_handler ⟨"/api/v1/users/1/avatars", "OPTIONS", none, none⟩ ⟨true, true, 0⟩ twoUserDb =
      ⟨create_response 200 (.plain "CORS preflight"), false, twoUserDb, []⟩ :=
  c7_options_immediate_no_db ⟨"/api/v1/users/1/avatars", "OPTIONS", none, none⟩ ⟨true, true, 0⟩
    twoUserDb rfl

/-- C3 (evaluation at the failing input): `GET /api/v1/users/1/avatars/5`
where avatar 5 exists but belongs to user 2. The claim (and the spec
scenario) say 404 "Avatar not found"; the code instead raises `TypeError`
inside `avatar_model.get(user_id, avatar_id)` — `Avatar.get` takes the
avatar id alone — and answers with a 500 "Failed to retrieve avatar". -/
theorem c3_foreign_avatar_is_500_not_404 :
    (dbAvatarById twoUserDb 5).map (fun a => a.user_id) = some 2 ∧
    (get_avatar "1" "5" twoUserDb).response.statusCode = 500 ∧
    (get_avatar "1" "5" twoUserDb).response.errMsg = some "Failed to retrieve avatar" ∧
    (get_avatar "1" "5" twoUserDb).response ≠
      create_error_response 404 "Avatar not found" none := by
  decide

/-- C5 (evaluation at the failing input): deleting a nonexistent user does
return the 404 the claim requires, and `User.delete` reports success by the
affected-row count; but deleting a nonexistent avatar answers 500 — the
`avatar_model.delete(user_id, avatar_id)` call raises `TypeError` before the
404 branch can run. -/
theorem c5_delete_nonexistent_evaluation :
    (delete_user "99" twoUserDb).response.statusCode = 404 ∧
    (delete_user "99" twoUserDb).response.errMsg = some "User not found" ∧
    (userDeleteTx (DriverOutcome.ok ([()] : List Unit)) (.okCount 0)).1 = .ok false ∧
    (userDeleteTx (DriverOutcome.ok ([()] : List Unit)) (.okCount 1)).1 = .ok true ∧
    (delete_avatar "1" "99" twoUserDb).response.statusCode = 500 ∧
    (delete_avatar "1" "99" twoUserDb).response.errMsg = some "Failed to delete avatar" ∧
    (delete_avatar "1" "99" twoUserDb).response ≠
      create_error_response 404 "Avatar not found" none := by
  decide

/-- C2 counterexample: the claim says the effective `limit` is clamped to
`[1, 100]` and the effective `offset` to `≥ 0`; but `limit=0` stays 0 (and
drives `get_users` into a 500 through the zero division at the page
computation), and `offset=-5` stays -5. -/
theorem c2_clamping_counterexample :
    effectiveLimit (some "0") 10 = .ok 0 ∧
    ¬ (1 ≤ (0 : Int)) ∧
    effectiveOffset (some "-5") = .ok (-5) ∧
    (get_users ⟨"/api/v1/users", "GET", some [("limit", "0")], none⟩ twoUserDb).response.statusCode
      = 500 ∧
    (search_users ⟨"/api/v1/users/search", "GET", some [("q", "jo"), ("limit", "0")], none⟩
      twoUserDb).response.statusCode = 500 := by
  decide

/-- C2 amended: the effective `limit` is only capped from above at 100
(default 10 for the listing, 20 for search) and the effective `offset`
defaults to 0; neither value is clamped from below. -/
theorem c2_effective_parameters (s : String) (n : Int)
    (h : parsePyIntStr s = some n) :
    effectiveLimit (some s) 10 = .ok (min n 100) ∧
    effectiveLimit (some s) 20 = .ok (min n 100) ∧
    min n 100 ≤ 100 ∧
    effectiveOffset (some s) = .ok n ∧
    effectiveLimit none 10 = .ok 10 ∧
    effectiveLimit none 20 = .ok 20 ∧
    effectiveOffset none = .ok 0 := by
  refine ⟨?_, ?_, min_le_right n 100, ?_, by decide, by decide, by decide⟩ <;>
    simp [effectiveLimit, effectiveOffset, h]

/-- A numeric avatar field whose coerced value is out of range makes
`checkNumericField` raise the message naming the field and its bounds. -/
theorem checkNumericField_hit (payload : List (String × PyVal))
    (cleaned : List (String × CleanVal)) (f : String) (lo hi : Int) (q : ℚ)
    (h : jsonGet payload f = some (.vNum q)) (hr : q < (lo : ℚ) ∨ q > (hi : ℚ)) :
    checkNumericField payload cleaned f lo hi =
      .error (f ++ " must be between " ++ toString lo ++ " and " ++ toString hi) := by
  have hne := pyStr_vNum_strip_ne q
  simp only [checkNumericField, h]
  rw [if_neg (by simp [hne])]
  simp only [pyFloat]
  rcases hr with h' | h'
  · rw [if_pos (by simp [h'])]
  · rw [if_pos (by simp [h'])]

/-- A single out-of-range numeric field is rejected by the validator with the
message naming the field and its bounds, in both full and partial mode. -/
theorem validate_single_numeric_oob (f : String) (lo hi : Int) (q : ℚ) (pt : Bool)
    (hmem : (f, lo, hi) ∈ numericConstraints) (hr : q < (lo : ℚ) ∨ q > (hi : ℚ)) :
    validateAvatarPayload [(f, .vNum q)] pt =
      .error (f ++ " must be between " ++ toString lo ++ " and " ++ toString hi) := by
  have hcases : (f = "height_cm" ∧ lo = 50 ∧ hi = 300) ∨
      (f = "weight_kg" ∧ lo = 20 ∧ hi = 500) ∨
      (f = "body_fat_percent" ∧ lo = 0 ∧ hi = 80) ∨
      (f = "shoulder_circumference_cm" ∧ lo = 20 ∧ hi = 300) ∨
      (f = "waist_cm" ∧ lo = 30 ∧ hi = 300) ∨
      (f = "hips_cm" ∧ lo = 30 ∧ hi = 300) := by
    simpa [numericConstraints, Prod.ext_iff] using hmem
  have hne := pyStr_vNum_strip_ne q
  rcases hcases with hc | hc | hc | hc | hc | hc <;>
    obtain ⟨rfl, rfl, rfl⟩ := hc <;>
    rcases hr with h' | h' <;>
    push_cast at h' <;>
    simp [validateAvatarPayload, numericConstraints, displayNameStep, ageStep,
      genderStep, notesStep, checkNumericField, jsonGet, allowedAvatarFields,
      pyFloat, hne, h', bind, Except.bind]

/-- An integer age outside 0-120 is rejected by the validator. -/
theorem validate_age_vInt_oob (a : Int) (pt : Bool) (ha : a < 0 ∨ a > 120) :
    validateAvatarPayload [("age", .vInt a)] pt =
      .error "Age must be between 0 and 120" := by
  obtain ⟨hstrip, hne⟩ := pyStr_vInt_strip a
  have hne2 : stripStr (pyStr (.vInt a)) ≠ "" := by rw [hstrip]; exact intToString_ne_empty a
  rcases ha with h' | h' <;>
    simp [validateAvatarPayload, displayNameStep, ageStep, genderStep, notesStep,
      checkNumericField, jsonGet, allowedAvatarFields, pyInt, hne2, h', bind, Except.bind]

/-- A rational age whose `int()` truncation falls outside 0-120 is rejected. -/
theorem validate_age_vNum_oob (qa : ℚ) (pt : Bool)
    (ha : ratTrunc qa < 0 ∨ ratTrunc qa > 120) :
    validateAvatarPayload [("age", .vNum qa)] pt =
      .error "Age must be between 0 and 120" := by
  have hne := pyStr_vNum_strip_ne qa
  rcases ha with h' | h' <;>
    simp [validateAvatarPayload, displayNameStep, ageStep, genderStep, notesStep,
      checkNumericField, jsonGet, allowedAvatarFields, pyInt, hne, h', bind, Except.bind]

/-- A rational age whose `int()` truncation lands inside 0-120 is accepted as
the truncated integer — even when the supplied value itself is outside the
documented range (e.g. `-0.5` or `120.9`). -/
theorem validate_age_vNum_accepted (qa : ℚ) (pt : Bool)
    (h0 : 0 ≤ ratTrunc qa) (h1 : ratTrunc qa ≤ 120) :
    validateAvatarPayload [("age", .vNum qa)] pt =
      .ok [("age", .cInt (ratTrunc qa))] := by
  have hne := pyStr_vNum_strip_ne qa
  have hno1 : ¬ ratTrunc qa < 0 := by omega
  have hno2 : ¬ ratTrunc qa > 120 := by omega
  simp [validateAvatarPayload, displayNameStep, ageStep, genderStep, notesStep,
    checkNumericField, jsonGet, allowedAvatarFields, numericConstraints, List.foldlM,
    pyInt, hne, hno1, hno2, bind, Except.bind, pure, Except.pure]

/-- C8 counterexample: the claim says any supplied `age` outside 0-120 draws
a 400 naming the field; but `age = -0.5` (a JSON number below 0) is accepted
by the validator as 0 — Python `int()` truncates toward zero before the
range check — and the request is not answered with the claimed 400. So is
`age = 120.9`. -/
theorem c8_age_truncation_counterexample :
    (mkRat (-1) 2 < (0 : ℚ)) ∧
    validateAvatarPayload [("age", .vNum (mkRat (-1) 2))] false = .ok [("age", .cInt 0)] ∧
    (mkRat 1209 10 > (120 : ℚ)) ∧
    validateAvatarPayload [("age", .vNum (mkRat 1209 10))] false =
      .ok [("age", .cInt 120)] ∧
    (create_avatar "1" ⟨"/api/v1/users/1/avatars", "POST", none,
        some [("age", .vNum (mkRat (-1) 2))]⟩ twoUserDb 0).response.statusCode ≠ 400 ∧
    (create_avatar "1" ⟨"/api/v1/users/1/avatars", "POST", none,
        some [("age", .vNum (mkRat (-1) 2))]⟩ twoUserDb 0).response.errMsg ≠
      some "Age must be between 0 and 120" := by
  decide

/-- C8 amended: each of the six float-coerced numeric fields is rejected with
a 400 naming the field and its bounds whenever the coerced value is outside
its range, with no SQL statement issued; `age`, however, is range-checked
only after `int()` truncation toward zero, and is rejected exactly when the
truncated value falls outside 0-120. -/
theorem c8_numeric_range_validation (f : String) (lo hi : Int) (q : ℚ) (ev : Event)
    (uid aid : String) (nu na : Int) (db : DbState) (now : Nat)
    (hmem : (f, lo, hi) ∈ numericConstraints)
    (hrange : q < (lo : ℚ) ∨ q > (hi : ℚ))
    (hbody : ev.body = some [(f, .vNum q)])
    (huid : parsePositiveInt uid "Invalid user ID format" = .ok nu)
    (haid : parsePositiveInt aid "Invalid avatar ID format" = .ok na) :
    (∀ pt : Bool, validateAvatarPayload [(f, .vNum q)] pt =
      .error (f ++ " must be between " ++ toString lo ++ " and " ++ toString hi)) ∧
    (create_avatar uid ev db now).response =
      create_error_response 400
        (f ++ " must be between " ++ toString lo ++ " and " ++ toString hi) none ∧
    (create_avatar uid ev db now).db = db ∧
    (create_avatar uid ev db now).trace = [] ∧
    (update_avatar uid aid ev db now).response =
      create_error_response 400
        (f ++ " must be between " ++ toString lo ++ " and " ++ toString hi) none ∧
    (update_avatar uid aid ev db now).trace = [] ∧
    (∀ a : Int, (a < 0 ∨ a > 120) →
      validateAvatarPayload [("age", .vInt a)] false =
        .error "Age must be between 0 and 120") ∧
    (∀ qa : ℚ, (ratTrunc qa < 0 ∨ ratTrunc qa > 120) →
      validateAvatarPayload [("age", .vNum qa)] false =
        .error "Age must be between 0 and 120") ∧
    (∀ qa : ℚ, 0 ≤ ratTrunc qa → ratTrunc qa ≤ 120 →
      validateAvatarPayload [("age", .vNum qa)] false =
        .ok [("age", .cInt (ratTrunc qa))]) := by
  have hval := fun pt => validate_single_numeric_oob f lo hi q pt hmem hrange
  refine ⟨hval, ?_, ?_, ?_, ?_, ?_,
    fun a ha => validate_age_vInt_oob a false ha,
    fun qa ha => validate_age_vNum_oob qa false ha,
    fun qa h0 h1 => validate_age_vNum_accepted qa false h0 h1⟩ <;>
    simp [create_avatar, update_avatar, huid, haid, hbody, hval]

/-- Witness for the amended C8 at `weight_kg = 1000000` (and integer /
rational ages at the boundary). -/
theorem c8_numeric_range_validation_witness :
    (∀ pt : Bool, validateAvatarPayload [("weight_kg", .vNum (1000000 : ℚ))] pt =
      .error ("weight_kg" ++ " must be between " ++ toString (20 : Int) ++ " and " ++
        toString (500 : Int))) ∧
    (create_avatar "1" ⟨"/api/v1/users/1/avatars", "POST", none,
        some [("weight_kg", .vNum (1000000 : ℚ))]⟩ twoUserDb 0).response =
      create_error_response 400
        ("weight_kg" ++ " must be between " ++ toString (20 : Int) ++ " and " ++
          toString (500 : Int)) none ∧
    (create_avatar "1" ⟨"/api/v1/users/1/avatars", "POST", none,
        some [("weight_kg", .vNum (1000000 : ℚ))]⟩ twoUserDb 0).db = twoUserDb ∧
    (create_avatar "1" ⟨"/api/v1/users/1/avatars", "POST", none,
        some [("weight_kg", .vNum (1000000 : ℚ))]⟩ twoUserDb 0).trace = [] ∧
    (update_avatar "1" "5" ⟨"/api/v1/users/1/avatars/5", "PATCH", none,
        some [("weight_kg", .vNum (1000000 : ℚ))]⟩ twoUserDb 0).response =
      create_error_response 400
        ("weight_kg" ++ " must be between " ++ toString (20 : Int) ++ " and " ++
          toString (500 : Int)) none ∧
    (update_avatar "1" "5" ⟨"/api/v1/users/1/avatars/5", "PATCH", none,
        some [("weight_kg", .vNum (1000000 : ℚ))]⟩ twoUserDb 0).trace = [] ∧
    (∀ a : Int, (a < 0 ∨ a > 120) →
      validateAvatarPayload [("age", .vInt a)] false =
        .error "Age must be between 0 and 120") ∧
    (∀ qa : ℚ, (ratTrunc qa < 0 ∨ ratTrunc qa > 120) →
      validateAvatarPayload [("age", .vNum qa)] false =
        .error "Age must be between 0 and 120") ∧
    (∀ qa : ℚ, 0 ≤ ratTrunc qa → ratTrunc qa ≤ 120 →
      validateAvatarPayload [("age", .vNum qa)] false =
        .ok [("age", .cInt (ratTrunc qa))]) :=
  c8_numeric_range_validation "weight_kg" 20 500 (1000000 : ℚ)
    ⟨"/api/v1/users/1/avatars", "POST", none, some [("weight_kg", .vNum (1000000 : ℚ))]⟩
    "1" "5" 1 5 twoUserDb 0 (by decide)
    (by right; norm_num) rfl (by decide) (by decide)

/-- C10: across the six model-layer write operations, whenever the driver
reports a failure while executing a statement, the result propagated to the
caller is an error and a rollback was issued on the connection; and whenever
the write statement executes successfully, a commit was issued. The failing
statement is exercised at every position: the email-check SELECT and the
INSERT of `User.create`, the id-check SELECT and the UPDATE of `User.update`,
the id-check SELECT and the `fetch=False` DELETE of `User.delete`, and the
single statement of each `Avatar` write. -/
theorem c10_write_tx_discipline (o : DriverOutcome Unit) (onf : NoFetchOutcome)
    (hfail : o.isFail = true) (hnffail : onf.isFail = true) :
    (exceptIsError (userCreateTx "a@x.com" o (DriverOutcome.ok ([] : List Unit))).1 = true ∧
      TxAction.rollback ∈ (userCreateTx "a@x.com" o (DriverOutcome.ok ([] : List Unit))).2) ∧
    (exceptIsError (userCreateTx "a@x.com" (DriverOutcome.ok ([] : List Unit)) o).1 = true ∧
      TxAction.rollback ∈ (userCreateTx "a@x.com" (DriverOutcome.ok ([] : List Unit)) o).2) ∧
    userCreateTx "a@x.com" (DriverOutcome.ok ([] : List Unit)) (.ok [()]) =
      (.ok (), [.exec, .exec, .commit]) ∧
    (exceptIsError (userUpdateTx [.fName "N"] o (DriverOutcome.ok ([] : List Unit))).1 = true ∧
      TxAction.rollback ∈ (userUpdateTx [.fName "N"] o (DriverOutcome.ok ([] : List Unit))).2) ∧
    (exceptIsError (userUpdateTx [.fName "N"] (DriverOutcome.ok [()]) o).1 = true ∧
      TxAction.rollback ∈ (userUpdateTx [.fName "N"] (DriverOutcome.ok [()]) o).2) ∧
    userUpdateTx [.fName "N"] (DriverOutcome.ok [()]) (.ok [()]) =
      (.ok (some ()), [.exec, .exec, .commit]) ∧
    (exceptIsError (userDeleteTx o (NoFetchOutcome.okCount 1)).1 = true ∧
      TxAction.rollback ∈ (userDeleteTx o (NoFetchOutcome.okCount 1)).2) ∧
    (exceptIsError (userDeleteTx (DriverOutcome.ok [()]) onf).1 = true ∧
      TxAction.rollback ∈ (userDeleteTx (DriverOutcome.ok [()]) onf).2) ∧
    userDeleteTx (DriverOutcome.ok [()]) (.okCount 1) =
      (.ok true, [.exec, .exec, .commit, .commit]) ∧
    (exceptIsError (avatarCreateTx
        [("user_id", PyVal.vInt 1), ("display_name", PyVal.vStr "X")] o).1 = true ∧
      TxAction.rollback ∈ (avatarCreateTx
        [("user_id", PyVal.vInt 1), ("display_name", PyVal.vStr "X")] o).2) ∧
    avatarCreateTx [("user_id", PyVal.vInt 1), ("display_name", PyVal.vStr "X")]
      (DriverOutcome.ok [()]) = (.ok (), [.exec, .commit]) ∧
    (exceptIsError (avatarUpdateTx [("weight_kg", PyVal.vNum 82)] o).1 = true ∧
      TxAction.rollback ∈ (avatarUpdateTx [("weight_kg", PyVal.vNum 82)] o).2) ∧
    avatarUpdateTx [("weight_kg", PyVal.vNum 82)] (DriverOutcome.ok [()]) =
      (.ok (some ()), [.exec, .commit]) ∧
    (exceptIsError (avatarDeleteTx o).1 = true ∧
      TxAction.rollback ∈ (avatarDeleteTx o).2) ∧
    avatarDeleteTx (DriverOutcome.ok ([()] : List Unit)) = (.ok true, [.exec, .commit]) := by
  cases o with
  | ok rows => simp [DriverOutcome.isFail] at hfail
  | queryError e =>
    cases onf with
    | okCount n => simp [NoFetchOutcome.isFail] at hnffail
    | queryError e2 =>
      simp [userCreateTx, userUpdateTx, userDeleteTx, avatarCreateTx, avatarUpdateTx,
        avatarDeleteTx, executeQueryTx, executeQueryNoFetchTx, exceptIsError,
        jsonGet, pyTruthy]
    | canceled e2 =>
      simp [userCreateTx, userUpdateTx, userDeleteTx, avatarCreateTx, avatarUpdateTx,
        avatarDeleteTx, executeQueryTx, executeQueryNoFetchTx, exceptIsError,
        jsonGet, pyTruthy]
  | canceled e =>
    cases onf with
    | okCount n => simp [NoFetchOutcome.isFail] at hnffail
    | queryError e2 =>
      simp [userCreateTx, userUpdateTx, userDeleteTx, avatarCreateTx, avatarUpdateTx,
        avatarDeleteTx, executeQueryTx, executeQueryNoFetchTx, exceptIsError,
        jsonGet, pyTruthy]
    | canceled e2 =>
      simp [userCreateTx, userUpdateTx, userDeleteTx, avatarCreateTx, avatarUpdateTx,
        avatarDeleteTx, executeQueryTx, executeQueryNoFetchTx, exceptIsError,
        jsonGet, pyTruthy]

/-- Witness for C10 at a concrete query error and a concrete timeout. -/
theorem c10_write_tx_discipline_witness :
    (exceptIsError (userCreateTx "a@x.com" (DriverOutcome.queryError "boom" : DriverOutcome Unit)
        (DriverOutcome.ok ([] : List Unit))).1 = true ∧
      TxAction.rollback ∈ (userCreateTx "a@x.com" (DriverOutcome.queryError "boom" : DriverOutcome Unit)
        (DriverOutcome.ok ([] : List Unit))).2) ∧
    (exceptIsError (userCreateTx "a@x.com" (DriverOutcome.ok ([] : List Unit))
        (DriverOutcome.queryError "boom" : DriverOutcome Unit)).1 = true ∧
      TxAction.rollback ∈ (userCreateTx "a@x.com" (DriverOutcome.ok ([] : List Unit))
        (DriverOutcome.queryError "boom" : DriverOutcome Unit)).2) ∧
    userCreateTx "a@x.com" (DriverOutcome.ok ([] : List Unit)) (.ok [()]) =
      (.ok (), [.exec, .exec, .commit]) ∧
    (exceptIsError (userUpdateTx [.fName "N"] (DriverOutcome.queryError "boom" : DriverOutcome Unit)
        (DriverOutcome.ok ([] : List Unit))).1 = true ∧
      TxAction.rollback ∈ (userUpdateTx [.fName "N"] (DriverOutcome.queryError "boom" : DriverOutcome Unit)
        (DriverOutcome.ok ([] : List Unit))).2) ∧
    (exceptIsError (userUpdateTx [.fName "N"] (DriverOutcome.ok [()])
        (DriverOutcome.queryError "boom" : DriverOutcome Unit)).1 = true ∧
      TxAction.rollback ∈ (userUpdateTx [.fName "N"] (DriverOutcome.ok [()])
        (DriverOutcome.queryError "boom" : DriverOutcome Unit)).2) ∧
    userUpdateTx [.fName "N"] (DriverOutcome.ok [()]) (.ok [()]) =
      (.ok (some ()), [.exec, .exec, .commit]) ∧
    (exceptIsError (userDeleteTx (DriverOutcome.queryError "boom" : DriverOutcome Unit)
        (NoFetchOutcome.okCount 1)).1 = true ∧
      TxAction.rollback ∈ (userDeleteTx (DriverOutcome.queryError "boom" : DriverOutcome Unit)
        (NoFetchOutcome.okCount 1)).2) ∧
    (exceptIsError (userDeleteTx (DriverOutcome.ok [()])
        (NoFetchOutcome.canceled "slow")).1 = true ∧
      TxAction.rollback ∈ (userDeleteTx (DriverOutcome.ok [()])
        (NoFetchOutcome.canceled "slow")).2) ∧
    userDeleteTx (DriverOutcome.ok [()]) (.okCount 1) =
      (.ok true, [.exec, .exec, .commit, .commit]) ∧
    (exceptIsError (avatarCreateTx
        [("user_id", PyVal.vInt 1), ("display_name", PyVal.vStr "X")]
        (DriverOutcome.queryError "boom" : DriverOutcome Unit)).1 = true ∧
      TxAction.rollback ∈ (avatarCreateTx
        [("user_id", PyVal.vInt 1), ("display_name", PyVal.vStr "X")]
        (DriverOutcome.queryError "boom" : DriverOutcome Unit)).2) ∧
    avatarCreateTx [("user_id", PyVal.vInt 1), ("display_name", PyVal.vStr "X")]
      (DriverOutcome.ok [()]) = (.ok (), [.exec, .commit]) ∧
    (exceptIsError (avatarUpdateTx [("weight_kg", PyVal.vNum 82)]
        (DriverOutcome.queryError "boom" : DriverOutcome Unit)).1 = true ∧
      TxAction.rollback ∈ (avatarUpdateTx [("weight_kg", PyVal.vNum 82)]
        (DriverOutcome.queryError "boom" : DriverOutcome Unit)).2) ∧
    avatarUpdateTx [("weight_kg", PyVal.vNum 82)] (DriverOutcome.ok [()]) =
      (.ok (some ()), [.exec, .commit]) ∧
    (exceptIsError (avatarDeleteTx (DriverOutcome.queryError "boom" : DriverOutcome Unit)).1
        = true ∧
      TxAction.rollback ∈ (avatarDeleteTx
        (DriverOutcome.queryError "boom" : DriverOutcome Unit)).2) ∧
    avatarDeleteTx (DriverOutcome.ok ([()] : List Unit)) = (.ok true, [.exec, .commit]) :=
  c10_write_tx_discipline (DriverOutcome.queryError "boom" : DriverOutcome Unit) (NoFetchOutcome.canceled "slow")
    (by decide) (by decide)

/-- C1: after path-id and payload validation succeed, every avatar route
invokes the `Avatar` model through names/arities it does not offer
(`list_for_user`, `get(user, avatar)`, `update`, `delete(user, avatar)`,
`create(user, payload)`, against the defined `list_by_user`, `get(avatar)`,
`update_partial`, `delete(avatar)`, `create(**kwargs)`), so the call raises
`AttributeError` or `TypeError` and each request ends in a 500 envelope. -/
theorem c1_avatar_dispatch_mismatch (uid aid : String) (nu na : Int) (ev : Event)
    (body : List (String × PyVal)) (cleanedF cleanedP : List (String × CleanVal))
    (db : DbState) (now : Nat)
    (huid : parsePositiveInt uid "Invalid user ID format" = .ok nu)
    (haid : parsePositiveInt aid "Invalid avatar ID format" = .ok na)
    (hbody : ev.body = some body)
    (hvalF : validateAvatarPayload body false = .ok cleanedF)
    (hvalP : validateAvatarPayload body true = .ok cleanedP) :
    (avatarMethodPosArity "list_for_user" = none ∧
      avatarMethodPosArity "update" = none ∧
      avatarMethodPosArity "list_by_user" = some (1, 3) ∧
      avatarMethodPosArity "get" = some (1, 1) ∧
      avatarMethodPosArity "create" = some (0, 0) ∧
      avatarMethodPosArity "update_partial" = some (1, 1) ∧
      avatarMethodPosArity "delete" = some (1, 1)) ∧
    (raisesAttrOrType (callAvatarMethod "list_for_user" 1) = true ∧
      raisesAttrOrType (callAvatarMethod "get" 2) = true ∧
      raisesAttrOrType (callAvatarMethod "update" 3) = true ∧
      raisesAttrOrType (callAvatarMethod "delete" 2) = true ∧
      raisesAttrOrType (callAvatarMethod "create" 2) = true) ∧
    ((list_avatars uid db).response.statusCode = 500 ∧
      (list_avatars uid db).response.errMsg = some "Failed to retrieve avatars") ∧
    ((get_avatar uid aid db).response.statusCode = 500 ∧
      (get_avatar uid aid db).response.errMsg = some "Failed to retrieve avatar") ∧
    ((create_avatar uid ev db now).response.statusCode = 500 ∧
      (create_avatar uid ev db now).response.errMsg = some "Failed to create avatar") ∧
    ((update_avatar uid aid ev db now).response.statusCode = 500 ∧
      (update_avatar uid aid ev db now).response.errMsg = some "Failed to update avatar") ∧
    ((delete_avatar uid aid db).response.statusCode = 500 ∧
      (delete_avatar uid aid db).response.errMsg = some "Failed to delete avatar") := by
  refine ⟨by decide, by decide, ?_, ?_, ?_, ?_, ?_⟩ <;>
    simp [list_avatars, get_avatar, create_avatar, update_avatar, delete_avatar,
      huid, haid, hbody, hvalF, hvalP, callAvatarMethod, avatarMethodPosArity,
      Response.errMsg, create_error_response, create_response]

/-- Witness for C1 at user 1, avatar 2, payload `{"display_name": "X"}`. -/
theorem c1_avatar_dispatch_mismatch_witness :
    (avatarMethodPosArity "list_for_user" = none ∧
      avatarMethodPosArity "update" = none ∧
      avatarMethodPosArity "list_by_user" = some (1, 3) ∧
      avatarMethodPosArity "get" = some (1, 1) ∧
      avatarMethodPosArity "create" = some (0, 0) ∧
      avatarMethodPosArity "update_partial" = some (1, 1) ∧
      avatarMethodPosArity "delete" = some (1, 1)) ∧
    (raisesAttrOrType (callAvatarMethod "list_for_user" 1) = true ∧
      raisesAttrOrType (callAvatarMethod "get" 2) = true ∧
      raisesAttrOrType (callAvatarMethod "update" 3) = true ∧
      raisesAttrOrType (callAvatarMethod "delete" 2) = true ∧
      raisesAttrOrType (callAvatarMethod "create" 2) = true) ∧
    ((list_avatars "1" twoUserDb).response.statusCode = 500 ∧
      (list_avatars "1" twoUserDb).response.errMsg = some "Failed to retrieve avatars") ∧
    ((get_avatar "1" "2" twoUserDb).response.statusCode = 500 ∧
      (get_avatar "1" "2" twoUserDb).response.errMsg = some "Failed to retrieve avatar") ∧
    ((create_avatar "1" ⟨"/api/v1/users/1/avatars", "POST", none,
        some [("display_name", .vStr "X")]⟩ twoUserDb 0).response.statusCode = 500 ∧
      (create_avatar "1" ⟨"/api/v1/users/1/avatars", "POST", none,
        some [("display_name", .vStr "X")]⟩ twoUserDb 0).response.errMsg =
        some "Failed to create avatar") ∧
    ((update_avatar "1" "2" ⟨"/api/v1/users/1/avatars", "POST", none,
        some [("display_name", .vStr "X")]⟩ twoUserDb 0).response.statusCode = 500 ∧
      (update_avatar "1" "2" ⟨"/api/v1/users/1/avatars", "POST", none,
        some [("display_name", .vStr "X")]⟩ twoUserDb 0).response.errMsg =
        some "Failed to update avatar") ∧
    ((delete_avatar "1" "2" twoUserDb).response.statusCode = 500 ∧
      (delete_avatar "1" "2" twoUserDb).response.errMsg = some "Failed to delete avatar") :=
  c1_avatar_dispatch_mismatch "1" "2" 1 2
    ⟨"/api/v1/users/1/avatars", "POST", none, some [("display_name", .vStr "X")]⟩
    [("display_name", .vStr "X")] [("display_name", .cStr "X")] [("display_name", .cStr "X")]
    twoUserDb 0 (by decide) (by decide) rfl (by decide) (by decide)

/-- The Python expression `(total_count + limit - 1) // limit` used by
`create_paginated_response` is exact ceiling division for `limit ≥ 1`. -/
theorem fdiv_add_pred_eq_ceil (tc limit : Int) (h1 : 1 ≤ limit) :
    Int.fdiv (tc + limit - 1) limit = ⌈(tc : ℚ) / (limit : ℚ)⌉ := by
  have hl0 : (0 : Int) < limit := by omega
  have hlq : (0 : ℚ) < (limit : ℚ) := by exact_mod_cast hl0
  rw [Int.fdiv_eq_ediv _ (by omega)]
  have hdm := Int.ediv_add_emod (tc + limit - 1) limit
  have hm0 : 0 ≤ (tc + limit - 1) % limit := Int.emod_nonneg _ (by omega)
  have hml : (tc + limit - 1) % limit < limit := Int.emod_lt_of_pos _ hl0
  have key1 : ((tc + limit - 1) / limit - 1) * limit < tc := by nlinarith
  have key2 : tc ≤ (tc + limit - 1) / limit * limit := by nlinarith
  symm
  rw [Int.ceil_eq_iff]
  constructor
  · rw [show ((((tc + limit - 1) / limit : Int) : ℚ) - 1) =
      (((tc + limit - 1) / limit - 1 : Int) : ℚ) by push_cast; ring]
    rw [lt_div_iff hlq]
    exact_mod_cast key1
  · rw [div_le_iff hlq]
    exact_mod_cast key2

/-- C9: for `offset ≥ 0`, `limit ≥ 1`, `total_count ≥ 0`, the pagination
object built by `create_paginated_response` around the page computed by
`get_users` / `search_users` carries `page = offset // limit + 1`,
`total_pages = ceiling(total_count / limit)`, `has_previous = (page > 1)`,
together with `limit` and `total_count` themselves. -/
theorem c9_pagination_object (offset limit tc : Int) (d : RData) (msg : Option String)
    (h0 : 0 ≤ offset) (h1 : 1 ≤ limit) (h2 : 0 ≤ tc) :
    (create_paginated_response d (Int.fdiv offset limit + 1) limit tc msg).body =
      .paginated d
        { page := Int.fdiv offset limit + 1
          limit := limit
          total_count := tc
          total_pages := ⌈(tc : ℚ) / (limit : ℚ)⌉
          has_next := decide ((Int.fdiv offset limit + 1) * limit < tc)
          has_previous := decide (Int.fdiv offset limit + 1 > 1) } msg := by
  simp only [create_paginated_response, create_response]
  rw [fdiv_add_pred_eq_ceil tc limit h1]

/-- Witness for C9 at `offset = 10`, `limit = 5`, `total_count = 2` (so
`page = 3`, `total_pages = 1`, `has_previous = true`). -/
theorem c9_pagination_object_witness :
    (create_paginated_response (.dUsers []) (Int.fdiv 10 5 + 1) 5 2 none).body =
      .paginated (.dUsers [])
        { page := Int.fdiv 10 5 + 1
          limit := 5
          total_count := 2
          total_pages := ⌈(2 : ℚ) / ((5 : Int) : ℚ)⌉
          has_next := decide ((Int.fdiv 10 5 + 1) * 5 < 2)
          has_previous := decide (Int.fdiv 10 5 + 1 > 1) } none :=
  c9_pagination_object 10 5 2 (.dUsers []) none (by decide) (by decide) (by decide)

/-- C4: when the (already normalized) email of a create-user call belongs to
an existing row, `User.create` raises before any INSERT: the result is an
error, the table is unchanged, and no INSERT statement is issued; at route
level the request gets the 400 duplicate-email envelope. -/
theorem c4_duplicate_email_rejected_before_insert (db : DbState) (now : Nat)
    (name email : String) (phone bio : Option String) (u : UserRow)
    (hu : u ∈ db.users) (he : u.email = email) :
    exceptIsError (userCreateS db now name email phone bio).1 = true ∧
    (userCreateS db now name email phone bio).2.1 = db ∧
    Stmt.insertUser ∉ (userCreateS db now name email phone bio).2.2 ∧
    (create_user ⟨"/api/v1/users", "POST", none,
        some [("name", .vStr "Jo"), ("email", .vStr "jo@x.com")]⟩
      ⟨[{ id := 1, name := "Jane", email := "jo@x.com", phone := none, bio := none,
          created_at := 0, updated_at := 0 }], []⟩ 0).response =
      create_error_response 400 "User with email jo@x.com already exists" none ∧
    (create_user ⟨"/api/v1/users", "POST", none,
        some [("name", .vStr "Jo"), ("email", .vStr "jo@x.com")]⟩
      ⟨[{ id := 1, name := "Jane", email := "jo@x.com", phone := none, bio := none,
          created_at := 0, updated_at := 0 }], []⟩ 0).db =
      ⟨[{ id := 1, name := "Jane", email := "jo@x.com", phone := none, bio := none,
          created_at := 0, updated_at := 0 }], []⟩ ∧
    Stmt.insertUser ∉ (create_user ⟨"/api/v1/users", "POST", none,
        some [("name", .vStr "Jo"), ("email", .vStr "jo@x.com")]⟩
      ⟨[{ id := 1, name := "Jane", email := "jo@x.com", phone := none, bio := none,
          created_at := 0, updated_at := 0 }], []⟩ 0).trace := by
  have hsome : (dbUserByEmail db email).isSome := by
    apply List.find?_isSome.mpr
    exact ⟨u, hu, by simp [he]⟩
  obtain ⟨w, hw⟩ := Option.isSome_iff_exists.mp hsome
  refine ⟨?_, ?_, ?_, by decide, by decide, by decide⟩ <;>
    simp [userCreateS, hw, exceptIsError]

/-- Witness for C4 at a concrete duplicate email. -/
theorem c4_duplicate_email_rejected_before_insert_witness :
    exceptIsError (userCreateS ⟨[sampleUserOne], []⟩ 3 "Another" "jane@x.com"
      none none).1 = true ∧
    (userCreateS ⟨[sampleUserOne], []⟩ 3 "Another" "jane@x.com" none none).2.1 =
      ⟨[sampleUserOne], []⟩ ∧
    Stmt.insertUser ∉ (userCreateS ⟨[sampleUserOne], []⟩ 3 "Another" "jane@x.com"
      none none).2.2 ∧
    (create_user ⟨"/api/v1/users", "POST", none,
        some [("name", .vStr "Jo"), ("email", .vStr "jo@x.com")]⟩
      ⟨[{ id := 1, name := "Jane", email := "jo@x.com", phone := none, bio := none,
          created_at := 0, updated_at := 0 }], []⟩ 0).response =
      create_error_response 400 "User with email jo@x.com already exists" none ∧
    (create_user ⟨"/api/v1/users", "POST", none,
        some [("name", .vStr "Jo"), ("email", .vStr "jo@x.com")]⟩
      ⟨[{ id := 1, name := "Jane", email := "jo@x.com", phone := none, bio := none,
          created_at := 0, updated_at := 0 }], []⟩ 0).db =
      ⟨[{ id := 1, name := "Jane", email := "jo@x.com", phone := none, bio := none,
          created_at := 0, updated_at := 0 }], []⟩ ∧
    Stmt.insertUser ∉ (create_user ⟨"/api/v1/users", "POST", none,
        some [("name", .vStr "Jo"), ("email", .vStr "jo@x.com")]⟩
      ⟨[{ id := 1, name := "Jane", email := "jo@x.com", phone := none, bio := none,
          created_at := 0, updated_at := 0 }], []⟩ 0).trace :=
  c4_duplicate_email_rejected_before_insert ⟨[sampleUserOne], []⟩ 3 "Another"
    "jane@x.com" none none sampleUserOne (by decide) (by decide)

/-- C6 counterexample: the claim says a trimmed name of length 1-100 passes
the name validation; but the one-character name "A" is rejected with the 400
length error by both `create_user` and `update_user` (the code requires at
least 2 characters). -/
theorem c6_one_char_name_rejected :
    (stripStr "A").length = 1 ∧
    (create_user ⟨"/api/v1/users", "POST", none,
        some [("name", .vStr "A"), ("email", .vStr "a@x.com")]⟩ ⟨[], []⟩ 0).response =
      create_error_response 400 "Name must be between 2 and 100 characters" none ∧
    (update_user "1" ⟨"/api/v1/users/1", "PUT", none, some [("name", .vStr "A")]⟩
        twoUserDb 0).response =
      create_error_response 400 "Name must be between 2 and 100 characters" none := by
  decide

/-- C6 amended: a trimmed name of length 2-100 passes the name validation of
`create_user` and `update_user` (the length error is never the response),
and any trimmed name outside 2-100 — in particular longer than 100 — is
rejected with the 400 length error. -/
theorem c6_name_length_validation (t : String) (db : DbState) (now : Nat)
    (htrim : stripStr t = t) :
    (2 ≤ t.length → t.length ≤ 100 →
      (create_user ⟨"/api/v1/users", "POST", none,
          some [("name", .vStr t), ("email", .vStr "jo@x.com")]⟩ db now).response.errMsg ≠
        some "Name must be between 2 and 100 characters" ∧
      (update_user "1" ⟨"/api/v1/users/1", "PUT", none, some [("name", .vStr t)]⟩
          db now).response.errMsg ≠ some "Name must be between 2 and 100 characters") ∧
    (t.length > 100 →
      (create_user ⟨"/api/v1/users", "POST", none,
          some [("name", .vStr t), ("email", .vStr "jo@x.com")]⟩ db now).response =
        create_error_response 400 "Name must be between 2 and 100 characters" none ∧
      (update_user "1" ⟨"/api/v1/users/1", "PUT", none, some [("name", .vStr t)]⟩
          db now).response =
        create_error_response 400 "Name must be between 2 and 100 characters" none) := by
  have he1 : stripStr "jo@x.com" = "jo@x.com" := by decide
  have he2 : lowerStr "jo@x.com" = "jo@x.com" := by decide
  have he3 : emailFormatOk "jo@x.com" = true := by decide
  have he4 : stripStr "" = "" := by decide
  have hp1 : parsePositiveInt "1" "Invalid user ID format" = .ok 1 := by decide
  constructor
  · intro h2 h100
    have hne : t ≠ "" := by
      intro h
      rw [h] at h2
      simp at h2
    have hlt : ¬ (t.length < 2) := by omega
    have hgt : ¬ (t.length > 100) := by omega
    constructor
    · rcases hfind : dbUserByEmail db "jo@x.com" with _ | u <;>
        simp [create_user, pyStripAttr, htrim, hne, hlt, hgt, he1, he2, he3, he4,
          jsonGet, userCreateS, hfind, Response.errMsg, create_error_response,
          create_success_response, create_response, PyExc.isValueError, PyExc.text]
    · rcases hfindu : dbUserById db 1 with _ | u <;>
        simp [update_user, collectUserUpdates, pyStripAttr, htrim, hne, hlt, hgt,
          jsonGet, userUpdateS, hfindu, hp1,
          Response.errMsg, create_error_response, create_success_response, create_response,
          bind, Except.bind, pure, Except.pure, PyExc.isValueError, PyExc.text]
  · intro h100
    have hne : t ≠ "" := by
      intro h
      rw [h] at h100
      simp at h100
    constructor
    · simp [create_user, pyStripAttr, htrim, hne, h100, he1, he2, he3, jsonGet]
    · simp [update_user, collectUserUpdates, pyStripAttr, htrim, hne, h100, jsonGet,
        hp1, bind, Except.bind, pure, Except.pure]

/-- Witness for the amended C6 at the two-character name "Jo" and a
101-character name. -/
theorem c6_name_length_validation_witness :
    ((2 ≤ ("Jo" : String).length → ("Jo" : String).length ≤ 100 →
      (create_user ⟨"/api/v1/users", "POST", none,
          some [("name", .vStr "Jo"), ("email", .vStr "jo@x.com")]⟩ twoUserDb 0).response.errMsg ≠
        some "Name must be between 2 and 100 characters" ∧
      (update_user "1" ⟨"/api/v1/users/1", "PUT", none, some [("name", .vStr "Jo")]⟩
          twoUserDb 0).response.errMsg ≠ some "Name must be between 2 and 100 characters") ∧
    (("Jo" : String).length > 100 →
      (create_user ⟨"/api/v1/users", "POST", none,
          some [("name", .vStr "Jo"), ("email", .vStr "jo@x.com")]⟩ twoUserDb 0).response =
        create_error_response 400 "Name must be between 2 and 100 characters" none ∧
      (update_user "1" ⟨"/api/v1/users/1", "PUT", none, some [("name", .vStr "Jo")]⟩
          twoUserDb 0).response =
        create_error_response 400 "Name must be between 2 and 100 characters" none)) :=
  c6_name_length_validation "Jo" twoUserDb 0 (by decide)

/-- Witness for the amended C2 at `limit=7`. -/
theorem c2_effective_parameters_witness :
    effectiveLimit (some "7") 10 = .ok (min 7 100) ∧
    effectiveLimit (some "7") 20 = .ok (min 7 100) ∧
    min (7 : Int) 100 ≤ 100 ∧
    effectiveOffset (some "7") = .ok 7 ∧
    effectiveLimit none 10 = .ok 10 ∧
    effectiveLimit none 20 = .ok 20 ∧
    effectiveOffset none = .ok 0 :=
  c2_effective_parameters "7" 7 (by decide)

end Fitspace
